import Mathlib

/-!
# cheesegull `models` package: embedding and verified properties

A shallow embedding of `models/beatmap.go`, `models/set.go` and
`models/set_search.go`.

Conventions of the embedding

* Go `int` is `Int`.  The only arithmetic the package performs on `int`s is
  `strconv.Atoi` (which clamps to the 64-bit range), `Offset / 100` and the
  mode shift, none of which can leave the 64-bit range.
* Go `uint8` is `Nat` reduced `% 256` after every operation.
* Go `string` is `String`; library routines that scan a string work on its
  list of characters.
* Go floating point values are not computed: a `float64` is kept as the
  symbolic expression that produced it (`F64`), likewise `float32` (`F32`).
* `time.Time` is the number of nanoseconds since the zero instant
  `0001-01-01 00:00:00 UTC`.
* A Go call either returns or panics: `Outcome`.
* A returned slice that may be `nil` is an `Option (List _)`; a returned
  `error` is an `Option Err`, `none` being `nil`.
* Collaborators outside the three files (HTTP transport, JSON decoder, the
  package functions `hash` and `decrypt`, `url.QueryEscape`, `fmt.Sscanf`, the
  RFC 3339 layout of `time.Parse`, the allocation limit of `make`) are fields
  of `Env`.
-/

namespace models

/-! ## Go runtime -/

/-- Result of running a Go function body: it panicked, or it returned. -/
inductive Outcome (α : Type) where
  | panic : Outcome α
  | ret : α → Outcome α
  deriving DecidableEq, Repr

/-- Sequencing of Go statements: a panic aborts what follows. -/
def Outcome.bind {α β : Type} : Outcome α → (α → Outcome β) → Outcome β
  | .panic, _ => .panic
  | .ret a, f => f a

instance : Monad Outcome where
  pure := Outcome.ret
  bind := Outcome.bind

/-- Go `error` values. -/
abbrev Err := String

/-- Slice indexing `xs[i]`: an index out of range panics. -/
def index {α : Type} (xs : List α) (i : Nat) : Outcome α :=
  match xs.get? i with
  | some x => .ret x
  | none => .panic

/-! ## Floating point values, kept symbolically -/

/-- A `float64`: the zero value, the constant `-1`, the value
`strconv.ParseFloat(s, bitSize)` returns next to its (discarded) error, or a
value stored by `fmt.Sscanf`. -/
inductive F64 where
  | zero : F64
  | negOne : F64
  | parsed (s : String) (bitSize : Nat) : F64
  | scanned (s : String) : F64
  deriving DecidableEq, Repr, Inhabited

/-- A `float32`: the zero value or the conversion `float32(x)`. -/
inductive F32 where
  | zero : F32
  | ofF64 (x : F64) : F32
  deriving DecidableEq, Repr, Inhabited

/-- The value half of `strconv.ParseFloat(s, bitSize)`. -/
def ParseFloat (s : String) (bitSize : Nat) : F64 := F64.parsed s bitSize

/-! ## `strconv` -/

/-- The two `strconv.NumError` causes: `ErrSyntax` and `ErrRange`. -/
inductive NumError where
  | invalid : NumError
  | range : NumError
  deriving DecidableEq, Repr

/-- ASCII decimal digit test. -/
def isDigit (c : Char) : Bool := 48 ≤ c.toNat && c.toNat ≤ 57

/-- Value of an ASCII decimal digit. -/
def digitVal (c : Char) : Nat := c.toNat - 48

/-- Largest `uint64`. -/
def maxUint64 : Nat := 2 ^ 64 - 1

/-- The digit loop of `strconv.ParseUint(s, 10, 64)`: a non-digit is a syntax
error with value `0`; an overflow stops the scan with the largest value and a
range error. -/
def parseUintLoop : List Char → Nat → Nat × Option NumError
  | [], n => (n, none)
  | c :: cs, n =>
    if !isDigit c then (0, some .invalid)
    else if n ≥ maxUint64 / 10 + 1 then (maxUint64, some .range)
    else
      let n1 := n * 10 + digitVal c
      if n1 > maxUint64 then (maxUint64, some .range)
      else parseUintLoop cs n1

/-- `strconv.ParseUint(s, 10, 64)`. -/
def ParseUint (s : List Char) : Nat × Option NumError :=
  match s with
  | [] => (0, some .invalid)
  | _ => parseUintLoop s 0

/-- `strconv.ParseInt(s, 10, 0)` on a 64-bit platform. -/
def ParseInt (s : List Char) : Int × Option NumError :=
  match s with
  | [] => (0, some .invalid)
  | c :: cs =>
    let neg := c == '-'
    let body := if c == '+' || c == '-' then cs else c :: cs
    match ParseUint body with
    | (_, some .invalid) => (0, some .invalid)
    | (un, _) =>
      if !neg && un ≥ 2 ^ 63 then ((2 : Int) ^ 63 - 1, some .range)
      else if neg && un > 2 ^ 63 then (-((2 : Int) ^ 63), some .range)
      else if neg then (-(un : Int), none)
      else ((un : Int), none)

/-- `strconv.Atoi(s)`, which the library documents as `ParseInt(s, 10, 0)`
converted to `int`. -/
def Atoi (s : String) : Int × Option NumError := ParseInt s.data

/-- `strconv.Itoa`, also the `%d` verb of `fmt.Sprintf`. -/
def Itoa (i : Int) : String := toString i

/-- `strconv.ParseBool`: the value and whether an error is returned. -/
def ParseBool (s : String) : Bool × Bool :=
  if s = "1" ∨ s = "t" ∨ s = "T" ∨ s = "TRUE" ∨ s = "true" ∨ s = "True" then (true, false)
  else if s = "0" ∨ s = "f" ∨ s = "F" ∨ s = "FALSE" ∨ s = "false" ∨ s = "False" then
    (false, false)
  else (false, true)

/-! ## `time` -/

/-- A `time.Time`: nanoseconds since `0001-01-01 00:00:00 UTC`. -/
structure Time where
  nanos : Int
  deriving DecidableEq, Repr, Inhabited

/-- The zero value `time.Time{}`. -/
def Time.zero : Time := ⟨0⟩

/-- Constant `time.Second`; a `time.Duration` is a number of nanoseconds. -/
def Second : Int := 1000000000

/-- Constant `time.Minute`. -/
def Minute : Int := 60 * Second

/-- Constant `time.Hour`. -/
def Hour : Int := 60 * Minute

/-- Method `Time.Add`. -/
def Time.Add (t : Time) (d : Int) : Time := ⟨t.nanos + d⟩

/-- Method `Time.Sub`. -/
def Time.Sub (t u : Time) : Int := t.nanos - u.nanos

/-- Method `Time.Truncate(time.Second)`: round down to a whole second since the
zero instant. -/
def Time.TruncateSecond (t : Time) : Time := ⟨t.nanos - t.nanos % Second⟩

/-- Gregorian leap year test (`time.isLeap`). -/
def isLeap (year : Nat) : Bool := year % 4 = 0 && (year % 100 ≠ 0 || year % 400 = 0)

/-- Number of days of a month (`time.daysIn`), months counted from 1. -/
def daysIn (month year : Nat) : Nat :=
  if month = 2 then (if isLeap year then 29 else 28)
  else if month = 4 ∨ month = 6 ∨ month = 9 ∨ month = 11 then 30
  else 31

/-- Days of a non-leap year before the first of a month (`time.daysBefore`). -/
def daysBefore (month : Nat) : Nat :=
  [0, 31, 59, 90, 120, 151, 181, 212, 243, 273, 304, 334].getD (month - 1) 0

/-- Function `time.Date(year, month, day, hour, min, sec, nsec, time.UTC)` for
arguments in their calendar ranges, where no normalisation takes place. -/
def Date (year month day hour min sec nsec : Nat) : Time :=
  let y : Int := (year : Int) - 1
  let d : Int := 365 * y + y / 4 - y / 100 + y / 400 + daysBefore month
    + (if isLeap year && month ≥ 3 then 1 else 0) + ((day : Int) - 1)
  ⟨((d * 86400 + hour * 3600 + min * 60 + sec) * 1000000000) + nsec⟩

/-- Helper `getnum` of `time.Parse`: one or two digits, exactly two when
`fixed`. -/
def getnum (s : List Char) (fixed : Bool) : Option (Nat × List Char) :=
  match s with
  | [] => none
  | c0 :: rest =>
    if !isDigit c0 then none
    else
      match rest with
      | [] => if fixed then none else some (digitVal c0, rest)
      | c1 :: rest1 =>
        if !isDigit c1 then (if fixed then none else some (digitVal c0, rest))
        else some (digitVal c0 * 10 + digitVal c1, rest1)

/-- Helper `skip` of `time.Parse` for a one-character literal other than a
space. -/
def skipLit (lit : Char) (value : List Char) : Option (List Char) :=
  match value with
  | [] => none
  | c :: rest => if c = lit then some rest else none

/-- Helper `skip` of `time.Parse` for a single space of the layout: the value
is exhausted or starts with a space, and its whole run of spaces is dropped. -/
def skipSpace (value : List Char) : Option (List Char) :=
  match value with
  | [] => some []
  | c :: rest => if c = ' ' then some (rest.dropWhile (· = ' ')) else none

/-- The four-digit year of `time.Parse` (`stdLongYear`). -/
def getYear (value : List Char) : Option (Nat × List Char) :=
  match value with
  | a :: b :: c :: d :: rest =>
    if isDigit a && isDigit b && isDigit c && isDigit d then
      some (digitVal a * 1000 + digitVal b * 100 + digitVal c * 10 + digitVal d, rest)
    else none
  | _ => none

/-- Value of a run of digits, most significant first. -/
def digitsVal (ds : List Char) : Nat := ds.foldl (fun n c => n * 10 + digitVal c) 0

/-- The fractional second `time.Parse` accepts after the seconds field even
though the layout has none: a period or comma followed by at least one digit.
At most nine digits count (`parseNanoseconds`); the whole run is consumed. -/
def getFraction (value : List Char) : Nat × List Char :=
  match value with
  | p :: d :: rest =>
    if (p = '.' ∨ p = ',') ∧ isDigit d then
      let run := (d :: rest).takeWhile isDigit
      let kept := run.take 9
      (digitsVal kept * 10 ^ (9 - kept.length), (d :: rest).dropWhile isDigit)
    else (0, value)
  | _ => (0, value)

/-- Function `time.Parse("2006-01-02 15:04:05", str)`; `none` is a returned
error (the `Time` returned with an error is the zero value). -/
def parseLayoutOsu (value : List Char) : Option Time := do
  let (year, v) ← getYear value
  let v ← skipLit '-' v
  let (month, v) ← getnum v true
  if month = 0 ∨ 12 < month then none
  let v ← skipLit '-' v
  let (day, v) ← getnum v true
  let v ← skipSpace v
  let (hour, v) ← getnum v false
  if 24 ≤ hour then none
  let v ← skipLit ':' v
  let (min, v) ← getnum v true
  if 60 ≤ min then none
  let v ← skipLit ':' v
  let (sec, v) ← getnum v true
  if 60 ≤ sec then none
  let (nsec, v) := getFraction v
  if v ≠ [] then none
  if day < 1 ∨ day > daysIn month year then none
  some (Date year month day hour min sec nsec)

/-- Function `parseOsuDatetime` (`set.go`). -/
def parseOsuDatetime (str : String) : Time :=
  match parseLayoutOsu str.data with
  | some t => t
  | none => Time.zero

/-! ## Data model (`beatmap.go`, `set.go`, `set_search.go`) -/

/-- Struct `Beatmap`. -/
structure Beatmap where
  ID : Int := 0
  ParentSetID : Int := 0
  DiffName : String := ""
  FileMD5 : String := ""
  Mode : Int := 0
  BPM : F64 := .zero
  AR : F32 := .zero
  OD : F32 := .zero
  CS : F32 := .zero
  HP : F32 := .zero
  TotalLength : Int := 0
  HitLength : Int := 0
  CountNormal : Int := 0
  CountSlider : Int := 0
  CountSpinner : Int := 0
  Playcount : Int := 0
  Passcount : Int := 0
  MaxCombo : Int := 0
  DifficultyRating : F64 := .zero
  deriving DecidableEq, Repr, Inhabited

/-- Struct `Set`.  A `nil` `ChildrenBeatmaps` is the empty list. -/
structure Set where
  ID : Int := 0
  ChildrenBeatmaps : List Beatmap := []
  TopicID : Int := 0
  RankedStatus : Int := 0
  SubmitDate : Time := Time.zero
  ApprovedDate : Time := Time.zero
  LastUpdate : Time := Time.zero
  LastChecked : Time := Time.zero
  Artist : String := ""
  ArtistUnicode : String := ""
  Title : String := ""
  TitleUnicode : String := ""
  Creator : String := ""
  Source : String := ""
  Tags : String := ""
  HasVideo : Bool := false
  HasStoryboard : Bool := false
  DownloadUnavailable : Bool := false
  AudioUnavailable : Bool := false
  Genre : Int := 0
  Language : Int := 0
  Favourites : Int := 0
  Rating : F32 := .zero
  deriving DecidableEq, Repr, Inhabited

/-- Struct `SearchOptions`. -/
structure SearchOptions where
  Status : List Int := []
  Query : String := ""
  Mode : List Int := []
  Offset : Int := 0
  Amount : Int := 0
  deriving DecidableEq, Repr, Inhabited

/-! ## Collaborators -/

/-- A JSON value as `encoding/json` decodes it into an `interface{}`.  The
package only ever asserts `string`; arrays and objects are `composite`. -/
inductive JVal where
  | null : JVal
  | bool (b : Bool) : JVal
  | number (x : F64) : JVal
  | str (s : String) : JVal
  | composite : JVal
  deriving DecidableEq, Repr, Inhabited

/-- A decoded JSON object, `map[string]interface{}`. -/
abbrev Record := List (String × JVal)

/-- Map lookup `d[key]`; `none` is the `nil` interface of a missing key. -/
def Record.get (d : Record) (key : String) : Option JVal := List.lookup key d

/-- Type assertion `v.(string)`: panics unless `v` holds a string. -/
def assertString (v : Option JVal) : Outcome String :=
  match v with
  | some (.str s) => .ret s
  | _ => .panic

/-- Type assertion `str, ok := v.(string)`. -/
def assertStringOk (v : Option JVal) : String × Bool :=
  match v with
  | some (.str s) => (s, true)
  | _ => ("", false)

/-- What the package calls outside its three files. -/
structure Env where
  /-- Call `http.Get(url)` followed by `ioutil.ReadAll(req.Body)`, whose error
  the callers overwrite: the error of `Get`, or the bytes read. -/
  httpGet : String → Except Err String
  /-- Call `json.Unmarshal(body, &data)` with `data []map[string]interface{}`. -/
  jsonUnmarshal : String → Except Err (List Record)
  /-- Result of `time.Now()`. -/
  now : Time
  /-- Package function `hash`. -/
  hash : String → String
  /-- Calls `hex.DecodeString(md5)`, `decrypt([]byte(salt), enc)` and
  `string(dec)`, errors discarded: arguments are `salt` and `md5`. -/
  decrypt : String → String → String
  /-- Call `url.QueryEscape`. -/
  queryEscape : String → String
  /-- Call `time.Parse("2006-01-02T15:04:05Z07:00", s)`; `none` is an error. -/
  parseRFC3339 : String → Option Time
  /-- Call `fmt.Sscanf(s, "%f@%d", &f, &d)`: the values stored, if any. -/
  sscanf : String → Option F64 × Option Int
  /-- Largest capacity `make([]Set, 0, n)` accepts; a larger one panics. -/
  maxCap : Nat

/-- Whether `make([]Set, 0, n)` panics: `n` is negative or out of range. -/
def makePanics (env : Env) (n : Int) : Bool := n < 0 || n > env.maxCap

/-- A row of table `users`. -/
structure UserRow where
  id : Int
  email : String
  username : String
  password_md5 : String
  salt : String
  deriving DecidableEq, Repr, Inhabited

/-- A row of table `sets`: the columns `CreateSet` inserts. -/
structure SetRow where
  id : Int
  ranked_status : Int
  approved_date : Time
  last_update : Time
  last_checked : Time
  artist : String
  title : String
  creator : String
  source : String
  tags : String
  has_video : Bool
  genre : Int
  language : Int
  favourites : Int
  set_modes : Nat
  deriving DecidableEq, Repr, Inhabited

/-- A row of table `beatmaps`: the columns of `beatmapFields`. -/
structure BeatmapRow where
  id : Int
  parent_set_id : Int
  diff_name : String
  file_md5 : String
  mode : Int
  bpm : F64
  ar : F32
  od : F32
  cs : F32
  hp : F32
  total_length : Int
  hit_length : Int
  playcount : Int
  passcount : Int
  max_combo : Int
  difficulty_rating : F64
  deriving DecidableEq, Repr, Inhabited

/-- The store behind `*sql.DB`: its tables and its failures.  A statement is
atomic: it takes effect or it fails and changes nothing. -/
structure DB where
  users : List UserRow := []
  sets : List SetRow := []
  beatmaps : List BeatmapRow := []
  /-- When set, `db.Query` fails with this error. -/
  queryErr : Option Err := none
  /-- What `rows.Err()` reports after an iteration. -/
  rowsErr : Option Err := none
  /-- How the engine answers a negative `LIMIT`: it rejects the query with this
  error, or (`none`) accepts it and applies no limit. -/
  negLimitErr : Option Err := none
  /-- Fate of the coming `db.Exec` calls, in order: `some e` fails with `e`.
  Calls beyond the list succeed. -/
  execFaults : List (Option Err) := []
  deriving DecidableEq, Repr, Inhabited

/-- Call `db.Exec` with a statement whose effect on the tables is `stmt`. -/
def DB.Exec (db : DB) (stmt : DB → DB) : DB × Option Err :=
  match db.execFaults with
  | [] => (stmt db, none)
  | none :: rest => ({ stmt db with execFaults := rest }, none)
  | some e :: rest => ({ db with execFaults := rest }, some e)

/-- Statement `DELETE FROM beatmaps WHERE parent_set_id = ?`. -/
def deleteBeatmapsOf (set : Int) (db : DB) : DB :=
  { db with beatmaps := db.beatmaps.filter (fun b => b.parent_set_id ≠ set) }

/-- Statement `DELETE FROM sets WHERE id = ?`. -/
def deleteSetRow (set : Int) (db : DB) : DB :=
  { db with sets := db.sets.filter (fun r => r.id ≠ set) }

/-- Statement `INSERT INTO sets(...) VALUES (...)`. -/
def insertSetRow (row : SetRow) (db : DB) : DB :=
  { db with sets := db.sets ++ [row] }

/-- Statement `INSERT INTO beatmaps(...) VALUES (...), ...`. -/
def insertBeatmapRows (rows : List BeatmapRow) (db : DB) : DB :=
  { db with beatmaps := db.beatmaps ++ rows }

/-- The query `SELECT email FROM users WHERE id = 1` followed by `rows.Next()`
and `rows.Scan(&api_key)`, as `FetchSet` and `FetchBeatmaps` run it. -/
def queryApiKey (db : DB) : Except Err String :=
  match db.queryErr with
  | some e => .error e
  | none =>
    match db.users.find? (fun u => u.id = 1) with
    | some u => .ok u.email
    | none => .error "sql: Rows are closed"

/-- The `WHERE` clause of `FetchSetsForBatchUpdate`,
`(ranked_status IN (3, 0, -1) AND last_checked <= ?) OR last_checked <= ?`. -/
def whereDue (p1 p2 : Time) (r : SetRow) : Bool :=
  ((r.ranked_status = 3 ∨ r.ranked_status = 0 ∨ r.ranked_status = -1)
      ∧ r.last_checked.nanos ≤ p1.nanos)
    ∨ r.last_checked.nanos ≤ p2.nanos

/-- The query of `FetchSetsForBatchUpdate`: filter, `ORDER BY last_checked
ASC`, `LIMIT ?`. -/
def querySets (db : DB) (p1 p2 : Time) (limit : Int) : Except Err (List SetRow) :=
  match db.queryErr with
  | some e => .error e
  | none =>
    let sorted := List.insertionSort (fun a b : SetRow => a.last_checked.nanos ≤ b.last_checked.nanos)
      (db.sets.filter (whereDue p1 p2))
    if limit < 0 then
      match db.negLimitErr with
      | some e => .error e
      | none => .ok sorted
    else .ok (sorted.take limit.toNat)

/-! ## `createSetModes` (`set.go`) and `apiToDirectStatus` (`set_search.go`) -/

/-- One iteration of the loop of `createSetModes`. -/
def createSetModesStep (setModes : Nat) (bm : Beatmap) : Nat :=
  let m := bm.Mode
  if m < 0 ∨ m ≥ 4 then setModes
  else (setModes ||| (1 <<< m.toNat) % 256) % 256

/-- Function `createSetModes`. -/
def createSetModes (bms : List Beatmap) : Nat :=
  bms.foldl createSetModesStep 0

/-- Function `apiToDirectStatus`. -/
def apiToDirectStatus (apiStatus : Int) : Int :=
  if apiStatus = 1 then 0
  else if apiStatus = 2 then 7
  else if apiStatus = 4 then 8
  else if apiStatus = 3 then 3
  else if apiStatus = 0 then 2
  else if apiStatus = -2 then 5
  else 0

/-! ## `beatmap.go` -/

/-- The body of the loop of `FetchBeatmaps` after the response is decoded:
the `Beatmap` built from the first record. -/
def beatmapFromRecord (d : Record) : Outcome Beatmap := do
  let beatmap_id ← assertString (d.get "beatmap_id")
  let beatmapset_id ← assertString (d.get "beatmapset_id")
  let version ← assertString (d.get "version")
  let file_md5 ← assertString (d.get "file_md5")
  let mode ← assertString (d.get "mode")
  let bpm ← assertString (d.get "bpm")
  let diff_approach ← assertString (d.get "diff_approach")
  let diff_overall ← assertString (d.get "diff_overall")
  let diff_size ← assertString (d.get "diff_size")
  let diff_drain ← assertString (d.get "diff_drain")
  let total_length ← assertString (d.get "total_length")
  let hit_length ← assertString (d.get "hit_length")
  let count_normal ← assertString (d.get "count_normal")
  let count_slider ← assertString (d.get "count_slider")
  let count_spinner ← assertString (d.get "count_spinner")
  let playcount ← assertString (d.get "playcount")
  let passcount ← assertString (d.get "passcount")
  let max_combo ← assertString (d.get "max_combo")
  let difficultyrating ← assertString (d.get "difficultyrating")
  pure {
    ID := (Atoi beatmap_id).1
    ParentSetID := (Atoi beatmapset_id).1
    DiffName := version
    FileMD5 := file_md5
    Mode := (Atoi mode).1
    BPM := ParseFloat bpm 64
    AR := F32.ofF64 (ParseFloat diff_approach 32)
    OD := F32.ofF64 (ParseFloat diff_overall 32)
    CS := F32.ofF64 (ParseFloat diff_size 32)
    HP := F32.ofF64 (ParseFloat diff_drain 32)
    TotalLength := (Atoi total_length).1
    HitLength := (Atoi hit_length).1
    CountNormal := (Atoi count_normal).1
    CountSlider := (Atoi count_slider).1
    CountSpinner := (Atoi count_spinner).1
    Playcount := (Atoi playcount).1
    Passcount := (Atoi passcount).1
    MaxCombo := (Atoi max_combo).1
    DifficultyRating := ParseFloat difficultyrating 64 }

/-- The loop `for _, id := range ids` of `FetchBeatmaps`; `bms` is the slice
built so far. -/
def fetchBeatmapsLoop (env : Env) (api_key : String) :
    List Int → List Beatmap → Outcome (Option (List Beatmap) × Option Err)
  | [], bms => .ret (some bms, none)
  | id :: ids, bms =>
    match env.httpGet ("https://old.ppy.sh/api/get_beatmaps?k=" ++ api_key ++ "&b=" ++ Itoa id) with
    | .error err => .ret (none, some err)
    | .ok body =>
      match env.jsonUnmarshal body with
      | .error err => .ret (none, some err)
      | .ok [] => .ret (none, none)
      | .ok (d :: _) =>
        match beatmapFromRecord d with
        | .panic => .panic
        | .ret bm => fetchBeatmapsLoop env api_key ids (bms ++ [bm])

/-- Function `FetchBeatmaps`. -/
def FetchBeatmaps (env : Env) (db : DB) (ids : List Int) :
    Outcome (Option (List Beatmap) × Option Err) :=
  if ids.length = 0 then .ret (none, none)
  else
    match queryApiKey db with
    | .error err => .ret (none, some err)
    | .ok api_key => fetchBeatmapsLoop env api_key ids []

/-- The row `CreateBeatmaps` inserts for a beatmap. -/
def beatmapRow (bm : Beatmap) : BeatmapRow :=
  { id := bm.ID, parent_set_id := bm.ParentSetID, diff_name := bm.DiffName,
    file_md5 := bm.FileMD5, mode := bm.Mode, bpm := bm.BPM,
    ar := bm.AR, od := bm.OD, cs := bm.CS, hp := bm.HP,
    total_length := bm.TotalLength, hit_length := bm.HitLength,
    playcount := bm.Playcount, passcount := bm.Passcount, max_combo := bm.MaxCombo,
    difficulty_rating := bm.DifficultyRating }

/-- Function `CreateBeatmaps`: the store after the call and the error. -/
def CreateBeatmaps (db : DB) (bms : List Beatmap) : DB × Option Err :=
  if bms.length = 0 then (db, none)
  else db.Exec (insertBeatmapRows (bms.map beatmapRow))

/-! ## `set.go` -/

/-- The `Set` that `rows.Scan` fills in `FetchSetsForBatchUpdate`; the columns
are typed and not null, so that `Scan` does not fail. -/
def scanSet (r : SetRow) : Set :=
  { ID := r.id, RankedStatus := r.ranked_status, ApprovedDate := r.approved_date,
    LastUpdate := r.last_update, LastChecked := r.last_checked,
    Artist := r.artist, Title := r.title, Creator := r.creator, Source := r.source,
    Tags := r.tags, HasVideo := r.has_video, Genre := r.genre,
    Language := r.language, Favourites := r.favourites }

/-- Function `FetchSetsForBatchUpdate`. -/
def FetchSetsForBatchUpdate (env : Env) (db : DB) (limit : Int) :
    Outcome (Option (List Set) × Option Err) :=
  let n := env.now
  match querySets db (n.Add (-Minute * 30)) (n.Add (-Hour * 24 * 4)) limit with
  | .error err => .ret (none, some err)
  | .ok rows =>
    if makePanics env limit then .panic
    else .ret (some (rows.map scanSet), db.rowsErr)

/-- The part of `FetchSet` that fills the set from the first record. -/
def setFromRecord (env : Env) (d : Record) : Outcome Set := do
  let beatmapset_id ← assertString (d.get "beatmapset_id")
  let approved ← assertString (d.get "approved")
  let (str, ok) := assertStringOk (d.get "approved_date")
  let approvedDate := if ok then parseOsuDatetime str else Time.zero
  let submit_date ← assertString (d.get "submit_date")
  let last_update ← assertString (d.get "last_update")
  let artist ← assertString (d.get "artist")
  let (str, ok) := assertStringOk (d.get "artist_unicode")
  let artistUnicode := if ok then str else ""
  let title ← assertString (d.get "title")
  let (str, ok) := assertStringOk (d.get "title_unicode")
  let titleUnicode := if ok then str else ""
  let creator ← assertString (d.get "creator")
  let source ← assertString (d.get "source")
  let tags ← assertString (d.get "tags")
  let video ← assertString (d.get "video")
  let storyboard ← assertString (d.get "storyboard")
  let download_unavailable ← assertString (d.get "download_unavailable")
  let audio_unavailable ← assertString (d.get "audio_unavailable")
  let genre_id ← assertString (d.get "genre_id")
  let language_id ← assertString (d.get "language_id")
  let favourite_count ← assertString (d.get "favourite_count")
  let rating ← assertString (d.get "rating")
  pure {
    ID := (Atoi beatmapset_id).1
    RankedStatus := (Atoi approved).1
    ApprovedDate := approvedDate
    SubmitDate := parseOsuDatetime submit_date
    LastUpdate := parseOsuDatetime last_update
    LastChecked := env.now.TruncateSecond
    Artist := artist
    ArtistUnicode := artistUnicode
    Title := title
    TitleUnicode := titleUnicode
    Creator := creator
    Source := source
    Tags := tags
    HasVideo := (ParseBool video).1
    HasStoryboard := (ParseBool storyboard).1
    DownloadUnavailable := (ParseBool download_unavailable).1
    AudioUnavailable := (ParseBool audio_unavailable).1
    Genre := (Atoi genre_id).1
    Language := (Atoi language_id).1
    Favourites := (Atoi favourite_count).1
    Rating := F32.ofF64 (ParseFloat rating 32) }

/-- The identifiers the loop of `FetchSet` collects before it calls
`FetchBeatmaps`. -/
def collectIDs : List Record → Outcome (List Int)
  | [] => .ret []
  | d :: ds =>
    match assertString (d.get "beatmap_id") with
    | .panic => .panic
    | .ret s =>
      match collectIDs ds with
      | .panic => .panic
      | .ret ids => .ret ((Atoi s).1 :: ids)

/-- Function `FetchSet`. -/
def FetchSet (env : Env) (db : DB) (id : Int) (withChildren : Bool) :
    Outcome (Option Set × Option Err) :=
  match queryApiKey db with
  | .error err => .ret (none, some err)
  | .ok api_key =>
    match env.httpGet ("https://old.ppy.sh/api/get_beatmaps?k=" ++ api_key ++ "&s=" ++ Itoa id) with
    | .error err => .ret (none, some err)
    | .ok body =>
      match env.jsonUnmarshal body with
      | .error err => .ret (none, some err)
      | .ok [] => .ret (none, none)
      | .ok (d :: ds) =>
        match setFromRecord env d with
        | .panic => .panic
        | .ret s =>
          if withChildren then
            match collectIDs (d :: ds) with
            | .panic => .panic
            | .ret ids =>
              match FetchBeatmaps env db ids with
              | .panic => .panic
              | .ret (_, some err) => .ret (none, some err)
              | .ret (children, none) =>
                .ret (some { s with ChildrenBeatmaps := children.getD [] }, none)
          else .ret (some s, none)

/-- Function `DeleteSet`: the store after the call and the error. -/
def DeleteSet (db : DB) (set : Int) : DB × Option Err :=
  match db.Exec (deleteBeatmapsOf set) with
  | (db1, some err) => (db1, some err)
  | (db1, none) => db1.Exec (deleteSetRow set)

/-- The row `CreateSet` inserts for a set. -/
def setRow (s : Set) : SetRow :=
  { id := s.ID, ranked_status := s.RankedStatus, approved_date := s.ApprovedDate,
    last_update := s.LastUpdate, last_checked := s.LastChecked,
    artist := s.Artist, title := s.Title, creator := s.Creator, source := s.Source,
    tags := s.Tags, has_video := s.HasVideo, genre := s.Genre,
    language := s.Language, favourites := s.Favourites,
    set_modes := createSetModes s.ChildrenBeatmaps }

/-- Function `CreateSet`: the store after the call and the error. -/
def CreateSet (db : DB) (s : Set) : DB × Option Err :=
  match DeleteSet db s.ID with
  | (db1, some err) => (db1, some err)
  | (db1, none) =>
    match db1.Exec (insertSetRow (setRow s)) with
    | (db2, some err) => (db2, some err)
    | (db2, none) => CreateBeatmaps db2 s.ChildrenBeatmaps

/-! ## `strings` -/

/-- The scan behind `strings.Split` and `strings.SplitN` for a non-empty
separator: `budget` separators may still be cut at, `skip` characters of a
separator just matched remain to be dropped, `cur` is the field being read,
reversed. -/
def splitGo (sep : List Char) : Nat → Nat → List Char → List Char → List (List Char)
  | _, _, cur, [] => [cur.reverse]
  | budget, skip + 1, cur, _ :: cs => splitGo sep budget skip cur cs
  | 0, 0, cur, c :: cs => splitGo sep 0 0 (c :: cur) cs
  | budget + 1, 0, cur, c :: cs =>
    if sep.isPrefixOf (c :: cs) then cur.reverse :: splitGo sep budget (sep.length - 1) [] cs
    else splitGo sep (budget + 1) 0 (c :: cur) cs

/-- Function `strings.Split(s, sep)` for a non-empty `sep`. -/
def Split (s sep : List Char) : List (List Char) := splitGo sep s.length 0 [] s

/-- Function `strings.SplitN(s, sep, n)` for a non-empty `sep` and `n > 0`. -/
def SplitN (s sep : List Char) (n : Nat) : List (List Char) := splitGo sep (n - 1) 0 [] s

/-- Function `strings.TrimSuffix(s, "\n")`. -/
def trimNewlineSuffix (s : List Char) : List Char :=
  if s.getLast? = some '\n' then s.dropLast else s

/-- Function `strings.Trim(s, " ")`. -/
def trimSpaces (s : List Char) : List Char :=
  ((s.dropWhile (· = ' ')).reverse.dropWhile (· = ' ')).reverse

/-! ## `set_search.go` -/

/-- Function `getAccount`. -/
def getAccount (env : Env) (db : DB) : String × String :=
  match db.queryErr with
  | some _ => ("", "")
  | none =>
    match db.users.find? (fun u => u.id = 1) with
    | none => ("", "")
    | some u => (u.username, env.decrypt u.salt u.password_md5)

/-- The separator of the child list of a search line, the three characters
U+00E2 U+02DC U+2026 of the source text. -/
def starSep : List Char := [Char.ofNat 0xE2, Char.ofNat 0x2DC, Char.ofNat 0x2026]

/-- The inner loop of `SearchSets` over the entries of field 13. -/
def searchChildren (env : Env) (setID : Int) : List (List Char) → List Beatmap
  | [] => []
  | v :: vs =>
    match Split v starSep with
    | ar0 :: ar1 :: _ =>
      let scan := env.sscanf (String.mk ar1)
      { ParentSetID := setID
        DiffName := String.mk (trimSpaces ar0)
        DifficultyRating := scan.1.getD .zero
        Mode := scan.2.getD 0
        BPM := .negOne } :: searchChildren env setID vs
    | _ => searchChildren env setID vs

/-- The body of the outer loop of `SearchSets` for a line that was split into
more than one field: the `Set` built from the fields. -/
def setFromFields (env : Env) (fields : List (List Char)) : Outcome Set := do
  let cp := fields.map (fun v => if v = [] then ['0'] else v)
  let artist ← index cp 1
  let title ← index cp 2
  let creator ← index cp 3
  let status ← index cp 4
  let rating ← index cp 5
  let date ← index cp 6
  let rankedStatus := (Atoi (String.mk status)).1
  let date_str := (env.parseRFC3339 (String.mk date)).getD Time.zero
  let id ← index cp 7
  let topic ← index cp 8
  let video ← index cp 9
  let storyboard ← index cp 10
  let bids ← index cp 13
  let setID := (Atoi (String.mk id)).1
  pure {
    Artist := String.mk artist
    Title := String.mk title
    Creator := String.mk creator
    RankedStatus := rankedStatus
    Rating := F32.ofF64 (ParseFloat (String.mk rating) 32)
    ApprovedDate := if rankedStatus > 0 then date_str else Time.zero
    LastUpdate := if rankedStatus > 0 then Time.zero else date_str
    ID := setID
    TopicID := (Atoi (String.mk topic)).1
    HasVideo := (ParseBool (String.mk video)).1
    HasStoryboard := (ParseBool (String.mk storyboard)).1
    ChildrenBeatmaps := searchChildren env setID (Split bids [','])  }

/-- The outer loop of `SearchSets` over the lines of the response; `sets` is
the slice built so far. -/
def searchLines (env : Env) : List (List Char) → List Set → Outcome (List Set)
  | [], sets => .ret sets
  | line :: lines, sets =>
    let cp := SplitN line ['|'] 14
    if cp.length = 1 then searchLines env lines sets
    else
      match setFromFields env cp with
      | .panic => .panic
      | .ret s => searchLines env lines (sets ++ [s])

/-- The lines `SearchSets` iterates over,
`strings.Split(strings.TrimSuffix(string(body), "\n"), "\n")`. -/
def bodyLines (body : String) : List (List Char) :=
  Split (trimNewlineSuffix body.data) ['\n']

/-- The URL `SearchSets` requests. -/
def searchURI (env : Env) (db : DB) (opts : SearchOptions) : String :=
  let (osuUsername, osuPassword) := getAccount env db
  let md5Password := env.hash osuPassword
  let search_uri := "https://old.ppy.sh/web/osu-search.php?u=" ++ osuUsername ++ "&h="
    ++ md5Password ++ "&p=" ++ Itoa (Int.tdiv opts.Offset 100)
  let search_uri :=
    if opts.Query ≠ "" then search_uri ++ "&q=" ++ env.queryEscape opts.Query
    else search_uri ++ "&q=Newest"
  let search_uri :=
    match opts.Status with
    | st :: _ => search_uri ++ "&r=" ++ env.queryEscape (Itoa (apiToDirectStatus st))
    | [] => search_uri ++ "&r=0"
  match opts.Mode with
  | m :: _ => search_uri ++ "&m=" ++ env.queryEscape (Itoa m)
  | [] => search_uri ++ "&m=0"

/-- Function `SearchSets`: the URLs requested with `http.Get`, in order, and
the outcome of the call. -/
def SearchSets (env : Env) (db _searchDB : DB) (opts : SearchOptions) :
    List String × Outcome (Option (List Set) × Option Err) :=
  if makePanics env opts.Amount then ([], .panic)
  else if opts.Status.length < 2 ∧ opts.Mode.length < 2 then
    let search_uri := searchURI env db opts
    match env.httpGet search_uri with
    | .error err => ([search_uri], .ret (none, some err))
    | .ok body =>
      match searchLines env (bodyLines body) [] with
      | .panic => ([search_uri], .panic)
      | .ret sets => ([search_uri], .ret (some sets, none))
  else ([], .ret (some [], none))

/-! ## Statements of the specification and sample collaborators -/

/-- The statuses of the short staleness tier: qualified, pending, WIP. -/
def tierA (status : Int) : Prop := status = 3 ∨ status = 0 ∨ status = -1

/-- The tiered due condition as the specification words it: a tier-A set is
due when `now - LastChecked >= 30 minutes`, any other when
`now - LastChecked >= 4 days`. -/
def tieredDue (now : Time) (r : SetRow) : Prop :=
  (tierA r.ranked_status ∧ now.Sub r.last_checked ≥ 30 * Minute) ∨
  (¬ tierA r.ranked_status ∧ now.Sub r.last_checked ≥ 4 * (24 * Hour))

/-- A set row with the given status and check time, other columns empty. -/
def rowAt (status : Int) (last_checked : Time) : SetRow :=
  { id := 1, ranked_status := status, approved_date := Time.zero, last_update := Time.zero,
    last_checked := last_checked, artist := "", title := "", creator := "", source := "",
    tags := "", has_video := false, genre := 0, language := 0, favourites := 0,
    set_modes := 0 }

/-- Collaborators for the worked examples: every request is answered by
`body`, which decodes to `data`. -/
def sampleEnv (body : String) (data : List Record) : Env :=
  { httpGet := fun _ => .ok body
    jsonUnmarshal := fun _ => .ok data
    now := ⟨63000000000000000000⟩
    hash := fun s => s
    decrypt := fun _ md5 => md5
    queryEscape := fun s => s
    parseRFC3339 := fun _ => none
    sscanf := fun _ => (none, none)
    maxCap := 1000000 }

/-- A store for the worked examples: the account row only. -/
def sampleDB : DB :=
  { users := [{ id := 1, email := "key", username := "u", password_md5 := "", salt := "" }] }

/-- The tables after the first `k` statements of `CreateSet` took effect:
delete the children, delete the set row, insert the set row, insert the
children. -/
def afterSteps (s : Set) (db : DB) : Nat → DB
  | 0 => db
  | 1 => deleteBeatmapsOf s.ID db
  | 2 => deleteSetRow s.ID (deleteBeatmapsOf s.ID db)
  | 3 => insertSetRow (setRow s) (deleteSetRow s.ID (deleteBeatmapsOf s.ID db))
  | _ => insertBeatmapRows (s.ChildrenBeatmaps.map beatmapRow)
      (insertSetRow (setRow s) (deleteSetRow s.ID (deleteBeatmapsOf s.ID db)))

/-- Number of statements `CreateSet` runs: `CreateBeatmaps` runs none for a
set without children. -/
def stepCount (s : Set) : Nat := if s.ChildrenBeatmaps.length = 0 then 3 else 4

/-- A stored set with one child, for the worked examples. -/
def storedDB : DB :=
  { sets := [rowAt 0 ⟨0⟩]
    beatmaps := [{ id := 10, parent_set_id := 1, diff_name := "Easy", file_md5 := "",
                   mode := 0, bpm := .zero, ar := .zero, od := .zero, cs := .zero, hp := .zero,
                   total_length := 0, hit_length := 0, playcount := 0, passcount := 0,
                   max_combo := 0, difficulty_rating := .zero }] }

/-- A record of the detail endpoint with every field the package asserts, the
three identity fields as given, followed by optional fields. -/
def sampleRecord (beatmap_id beatmapset_id mode : String) (optional : List (String × JVal)) :
    Record :=
  [("beatmap_id", .str beatmap_id), ("beatmapset_id", .str beatmapset_id),
   ("version", .str "Easy"), ("file_md5", .str "d41d8"), ("mode", .str mode),
   ("bpm", .str "180"), ("diff_approach", .str "9"), ("diff_overall", .str "8"),
   ("diff_size", .str "4"), ("diff_drain", .str "6"), ("total_length", .str "90"),
   ("hit_length", .str "80"), ("count_normal", .str "100"), ("count_slider", .str "50"),
   ("count_spinner", .str "1"), ("playcount", .str "1000"), ("passcount", .str "100"),
   ("max_combo", .str "300"), ("difficultyrating", .str "5.25"), ("approved", .str "1"),
   ("submit_date", .str "2019-01-02 03:04:05"), ("last_update", .str "2019-02-03 04:05:06"),
   ("artist", .str "Artist"), ("title", .str "Title"), ("creator", .str "Mapper"),
   ("source", .str ""), ("tags", .str "a b"), ("video", .str "0"), ("storyboard", .str "1"),
   ("download_unavailable", .str "0"), ("audio_unavailable", .str "0"),
   ("genre_id", .str "2"), ("language_id", .str "3"), ("favourite_count", .str "12"),
   ("rating", .str "9.5")] ++ optional

/-- The value a call returned; the default value after a panic. -/
def Outcome.value {α : Type} [Inhabited α] : Outcome α → α
  | .ret a => a
  | .panic => default

/-- A search response of two lines: a count, and a record of 14 fields. -/
def sampleSearchBody : String := "1\nf|A|T|C|1|9.5|d|7|8|1|0|x|y|kids\n"

/-- The character of the decimal digit `n`. -/
def digitChar (n : Nat) : Char := Char.ofNat (48 + n)

/-- Two decimal digits, zero padded. -/
def pad2 (n : Nat) : List Char := [digitChar (n / 10), digitChar (n % 10)]

/-- Four decimal digits, zero padded. -/
def pad4 (n : Nat) : List Char :=
  [digitChar (n / 1000), digitChar (n / 100 % 10), digitChar (n / 10 % 10), digitChar (n % 10)]

/-- The text `YYYY-MM-DD HH:MM:SS` of a calendar date and time of day, the
pattern of the specification. -/
def formatOsuDatetime (year month day hour min sec : Nat) : String :=
  String.mk (pad4 year ++ ['-'] ++ pad2 month ++ ['-'] ++ pad2 day ++ [' '] ++ pad2 hour
    ++ [':'] ++ pad2 min ++ [':'] ++ pad2 sec)

/-- A calendar date and time of day that the pattern can write. -/
def validCivil (year month day hour min sec : Nat) : Prop :=
  year ≤ 9999 ∧ 1 ≤ month ∧ month ≤ 12 ∧ 1 ≤ day ∧ day ≤ daysIn month year ∧
  hour < 24 ∧ min < 60 ∧ sec < 60

/-- The fields `FetchSet` asserts to be strings in the first record. -/
def requiredSetKeys : List String :=
  ["beatmapset_id", "approved", "submit_date", "last_update", "artist", "title", "creator",
   "source", "tags", "video", "storyboard", "download_unavailable", "audio_unavailable",
   "genre_id", "language_id", "favourite_count", "rating"]

/-- Whether the value of a key is a string. -/
def isStringAt (d : Record) (key : String) : Bool :=
  match d.get key with
  | some (.str _) => true
  | _ => false

/-- Whether a record has all required set fields. -/
def hasRequired (d : Record) : Bool := requiredSetKeys.all (isStringAt d)

/-- A record with the three optional fields present. -/
def sampleFullRecord : Record :=
  sampleRecord "10" "2" "0"
    [("approved_date", .str "2019-03-04 05:06:07"), ("artist_unicode", .str "Künstler"),
     ("title_unicode", .str "Titel")]

/-! ## Properties of `createSetModes` and `apiToDirectStatus` -/

/-- The test `0 <= Mode < 4` of `createSetModes`. -/
def modeInRange (bm : Beatmap) : Bool := 0 ≤ bm.Mode && bm.Mode < 4

/-- The bitwise OR of `1 << Mode` over a list of beatmaps. -/
def orOfModes (bms : List Beatmap) : Nat :=
  bms.foldl (fun acc bm => acc ||| (1 <<< bm.Mode.toNat)) 0

theorem createSetModesStep_inRange (acc : Nat) (bm : Beatmap) (h : modeInRange bm = true)
    (hacc : acc < 16) :
    createSetModesStep acc bm = acc ||| (1 <<< bm.Mode.toNat) ∧
      createSetModesStep acc bm < 16 := by
  unfold modeInRange at h
  simp only [Bool.and_eq_true, decide_eq_true_eq] at h
  obtain ⟨k, hk⟩ : ∃ k : Nat, bm.Mode = (k : Int) := ⟨bm.Mode.toNat, by omega⟩
  have hk4 : k < 4 := by omega
  have hstep : createSetModesStep acc bm = (acc ||| (1 <<< k) % 256) % 256 := by
    unfold createSetModesStep
    simp only [hk, Int.toNat_ofNat]
    rw [if_neg (by omega)]
  rw [hstep, hk, Int.toNat_ofNat]
  interval_cases k <;> interval_cases acc <;> decide

theorem createSetModesStep_outOfRange (acc : Nat) (bm : Beatmap) (h : modeInRange bm = false) :
    createSetModesStep acc bm = acc := by
  unfold modeInRange at h
  unfold createSetModesStep
  simp only [Bool.and_eq_false_iff, decide_eq_false_iff_not] at h
  rw [if_pos (by omega)]

theorem foldl_createSetModesStep (bms : List Beatmap) (acc : Nat) (hacc : acc < 16) :
    bms.foldl createSetModesStep acc < 16 ∧
    bms.foldl createSetModesStep acc =
      (bms.filter modeInRange).foldl (fun a bm => a ||| (1 <<< bm.Mode.toNat)) acc ∧
    ∀ m : Nat, (bms.foldl createSetModesStep acc).testBit m = true ↔
      (acc.testBit m = true ∨ ∃ bm ∈ bms, modeInRange bm = true ∧ bm.Mode = (m : Int)) := by
  induction bms generalizing acc with
  | nil => simp [hacc]
  | cons b bs ih =>
    by_cases hb : modeInRange b = true
    · obtain ⟨e1, e2⟩ := createSetModesStep_inRange acc b hb hacc
      obtain ⟨i1, i2, i3⟩ := ih (createSetModesStep acc b) e2
      refine ⟨by simpa using i1, ?_, ?_⟩
      · simp only [List.foldl_cons, List.filter_cons, hb, if_true]
        rw [i2, e1]
      · intro m
        simp only [List.foldl_cons]
        rw [i3 m, e1, Nat.testBit_or, Nat.testBit_shiftLeft]
        have hm : 0 ≤ b.Mode := by
          unfold modeInRange at hb
          simp only [Bool.and_eq_true, decide_eq_true_eq] at hb
          exact hb.1
        simp only [Bool.or_eq_true, Bool.and_eq_true, decide_eq_true_eq, List.mem_cons,
          exists_eq_or_imp, hb, true_and]
        have key : (m ≥ b.Mode.toNat ∧ Nat.testBit 1 (m - b.Mode.toNat) = true) ↔
            b.Mode = (m : Int) := by
          constructor
          · rintro ⟨h1, h2⟩
            have h0 : m - b.Mode.toNat = 0 := by
              by_contra hne
              rw [Nat.testBit_one_eq_true_iff_self_eq_zero] at h2
              exact hne h2
            omega
          · intro h
            have : b.Mode.toNat = m := by omega
            subst this
            simp
        rw [key]
        tauto
    · have hb2 : modeInRange b = false := by simpa using hb
      have e1 := createSetModesStep_outOfRange acc b hb2
      obtain ⟨i1, i2, i3⟩ := ih acc hacc
      refine ⟨by simpa [e1] using i1, ?_, ?_⟩
      · simp only [List.foldl_cons, List.filter_cons, hb2, e1]
        simpa using i2
      · intro m
        simp only [List.foldl_cons, e1]
        rw [i3 m]
        simp [hb2]

/-- C1: bit `m` of `createSetModes bms`, for `m` in `0..3`, is set exactly when
some beatmap has `Mode = m`; bits 4 and above are clear; beatmaps whose mode is
negative or at least 4 do not change the result, which is the bitwise OR of
`1 << Mode` over the beatmaps with a mode in range; modes `0, 0, 2` give
`0b0101`. -/
theorem createSetModes_spec (bms : List Beatmap) :
    (∀ m : Nat, m < 4 →
      ((createSetModes bms).testBit m = true ↔ ∃ bm ∈ bms, bm.Mode = (m : Int))) ∧
    (∀ k : Nat, 4 ≤ k → (createSetModes bms).testBit k = false) ∧
    createSetModes bms < 256 ∧
    createSetModes (bms.filter modeInRange) = createSetModes bms ∧
    createSetModes bms = orOfModes (bms.filter modeInRange) ∧
    (∀ b : Beatmap, createSetModes
      [{ b with Mode := 0 }, { b with Mode := 0 }, { b with Mode := 2 }] = 0b0101) := by
  obtain ⟨h1, h2, h3⟩ := foldl_createSetModesStep bms 0 (by decide)
  refine ⟨?_, ?_, ?_, ?_, ?_, ?_⟩
  · intro m hm
    unfold createSetModes
    rw [h3 m]
    simp only [Nat.zero_testBit, Bool.false_eq_true, false_or]
    constructor
    · rintro ⟨bm, hbm, -, e⟩
      exact ⟨bm, hbm, e⟩
    · rintro ⟨bm, hbm, e⟩
      refine ⟨bm, hbm, ?_, e⟩
      unfold modeInRange
      simp only [Bool.and_eq_true, decide_eq_true_eq]
      omega
  · intro k hk
    unfold createSetModes
    apply Nat.testBit_eq_false_of_lt
    calc bms.foldl createSetModesStep 0 < 16 := h1
      _ = 2 ^ 4 := by norm_num
      _ ≤ 2 ^ k := Nat.pow_le_pow_right (by norm_num) hk
  · unfold createSetModes
    omega
  · obtain ⟨-, g2, -⟩ := foldl_createSetModesStep (bms.filter modeInRange) 0 (by decide)
    unfold createSetModes
    rw [g2, h2, List.filter_filter]
    simp
  · unfold createSetModes orOfModes
    exact h2
  · intro b
    simp [createSetModes, createSetModesStep]

/-- C7: `apiToDirectStatus` is the translation table 1 -> 0, 2 -> 7, 4 -> 8,
3 -> 3, 0 -> 2, -2 -> 5 and every other integer -> 0. -/
theorem apiToDirectStatus_table (apiStatus : Int) :
    apiToDirectStatus 1 = 0 ∧ apiToDirectStatus 2 = 7 ∧ apiToDirectStatus 4 = 8 ∧
    apiToDirectStatus 3 = 3 ∧ apiToDirectStatus 0 = 2 ∧ apiToDirectStatus (-2) = 5 ∧
    (apiStatus ≠ 1 → apiStatus ≠ 2 → apiStatus ≠ 4 → apiStatus ≠ 3 → apiStatus ≠ 0 →
      apiStatus ≠ -2 → apiToDirectStatus apiStatus = 0) := by
  refine ⟨by decide, by decide, by decide, by decide, by decide, by decide, ?_⟩
  intro h1 h2 h4 h3 h0 hm2
  unfold apiToDirectStatus
  simp [h1, h2, h4, h3, h0, hm2]

/-! ## Properties of `FetchSetsForBatchUpdate` -/

theorem whereDue_iff (now : Time) (r : SetRow) :
    whereDue (now.Add (-Minute * 30)) (now.Add (-Hour * 24 * 4)) r = true ↔ tieredDue now r := by
  unfold whereDue tieredDue tierA Time.Add Time.Sub Hour Minute Second
  simp only [Bool.decide_or, Bool.decide_and, Bool.or_eq_true, Bool.and_eq_true,
    decide_eq_true_eq]
  norm_num
  constructor
  · rintro (⟨h, h2⟩ | h)
    · exact Or.inl ⟨h, by omega⟩
    · by_cases ha : r.ranked_status = 3 ∨ r.ranked_status = 0 ∨ r.ranked_status = -1
      · exact Or.inl ⟨ha, by omega⟩
      · exact Or.inr ⟨by simpa using ha, by omega⟩
  · rintro (⟨h, h2⟩ | ⟨-, h2⟩)
    · exact Or.inl ⟨h, by omega⟩
    · exact Or.inr (by omega)

theorem FetchSetsForBatchUpdate_members (env : Env) (db : DB) (limit : Int)
    (hq : db.queryErr = none) (hlen : (db.sets.length : Int) ≤ limit)
    (hcap : makePanics env limit = false) :
    ∃ sets, FetchSetsForBatchUpdate env db limit = .ret (some sets, db.rowsErr) ∧
      ∀ s, s ∈ sets ↔ ∃ r ∈ db.sets, tieredDue env.now r ∧ s = scanSet r := by
  have hnn : ¬ limit < 0 := by
    have : (0 : Int) ≤ (db.sets.length : Int) := Int.natCast_nonneg _
    omega
  have hsorted : ∀ l : List SetRow,
      (List.insertionSort (fun a b : SetRow => a.last_checked.nanos ≤ b.last_checked.nanos) l).length
        = l.length := fun l => List.length_insertionSort _ l
  have htake : (List.insertionSort
        (fun a b : SetRow => a.last_checked.nanos ≤ b.last_checked.nanos)
        (db.sets.filter (whereDue (env.now.Add (-Minute * 30)) (env.now.Add (-Hour * 24 * 4))))).take
          limit.toNat
      = List.insertionSort (fun a b : SetRow => a.last_checked.nanos ≤ b.last_checked.nanos)
        (db.sets.filter (whereDue (env.now.Add (-Minute * 30)) (env.now.Add (-Hour * 24 * 4)))) := by
    apply List.take_of_length_le
    rw [hsorted]
    have := List.length_filter_le
      (whereDue (env.now.Add (-Minute * 30)) (env.now.Add (-Hour * 24 * 4))) db.sets
    omega
  refine ⟨(List.insertionSort (fun a b : SetRow => a.last_checked.nanos ≤ b.last_checked.nanos)
    (db.sets.filter (whereDue (env.now.Add (-Minute * 30))
      (env.now.Add (-Hour * 24 * 4))))).map scanSet, ?_, ?_⟩
  · unfold FetchSetsForBatchUpdate querySets
    simp only [hq, hnn, if_false, htake, hcap, Bool.false_eq_true]
  · intro s
    simp only [List.mem_map]
    constructor
    · rintro ⟨r, hr, rfl⟩
      have hr2 := (List.perm_insertionSort _ _).mem_iff.mp hr
      rw [List.mem_filter] at hr2
      exact ⟨r, hr2.1, (whereDue_iff env.now r).mp hr2.2, rfl⟩
    · rintro ⟨r, hr, hdue, rfl⟩
      refine ⟨r, ?_, rfl⟩
      apply (List.perm_insertionSort _ _).mem_iff.mpr
      rw [List.mem_filter]
      exact ⟨hr, (whereDue_iff env.now r).mpr hdue⟩

/-- C2: the `WHERE` clause of `FetchSetsForBatchUpdate`, with the two instants
the function passes, holds exactly when the tiered due condition holds; a
tier-A set checked 29m59s ago is not selected and one checked 30m00s ago is; a
tier-B set checked 4 days less a second ago is not selected and one checked
exactly 4 days ago is.  When the store answers and the limit covers the table,
the sets returned are exactly those of the rows that are due. -/
theorem FetchSetsForBatchUpdate_selects_tieredDue (now : Time) :
    (∀ r : SetRow,
      whereDue (now.Add (-Minute * 30)) (now.Add (-Hour * 24 * 4)) r = true ↔ tieredDue now r) ∧
    (∀ status : Int, tierA status →
      whereDue (now.Add (-Minute * 30)) (now.Add (-Hour * 24 * 4))
        (rowAt status (now.Add (-(29 * Minute + 59 * Second)))) = false ∧
      whereDue (now.Add (-Minute * 30)) (now.Add (-Hour * 24 * 4))
        (rowAt status (now.Add (-(30 * Minute)))) = true) ∧
    (∀ status : Int, ¬ tierA status →
      whereDue (now.Add (-Minute * 30)) (now.Add (-Hour * 24 * 4))
        (rowAt status (now.Add (-(4 * (24 * Hour) - Second)))) = false ∧
      whereDue (now.Add (-Minute * 30)) (now.Add (-Hour * 24 * 4))
        (rowAt status (now.Add (-(4 * (24 * Hour))))) = true) ∧
    (∀ (env : Env) (db : DB) (limit : Int), env.now = now → db.queryErr = none →
      (db.sets.length : Int) ≤ limit → makePanics env limit = false →
      ∃ sets, FetchSetsForBatchUpdate env db limit = .ret (some sets, db.rowsErr) ∧
        ∀ s, s ∈ sets ↔ ∃ r ∈ db.sets, tieredDue now r ∧ s = scanSet r) := by
  refine ⟨whereDue_iff now, ?_, ?_, ?_⟩
  rotate_right
  · intro env db limit hn hq hlen hcap
    subst hn
    exact FetchSetsForBatchUpdate_members env db limit hq hlen hcap
  · intro status ha
    constructor
    · rw [← Bool.not_eq_true, whereDue_iff]
      unfold tieredDue rowAt Time.Add Time.Sub Hour Minute Second
      simp only [ha, true_and, not_true_eq_false, false_and, or_false]
      norm_num
    · rw [whereDue_iff]
      unfold tieredDue rowAt Time.Add Time.Sub Hour Minute Second
      simp only [ha, true_and, not_true_eq_false, false_and, or_false]
      norm_num
  · intro status ha
    constructor
    · rw [← Bool.not_eq_true, whereDue_iff]
      unfold tieredDue rowAt Time.Add Time.Sub Hour Minute Second
      simp only [ha, false_and, not_false_eq_true, true_and, false_or]
      norm_num
    · rw [whereDue_iff]
      unfold tieredDue rowAt Time.Add Time.Sub Hour Minute Second
      simp only [ha, false_and, not_false_eq_true, true_and, false_or]
      norm_num

/-- C9, as the code has it: with limit 0 and a store that answers the query,
`FetchSetsForBatchUpdate` returns an empty sequence and no error. -/
theorem FetchSetsForBatchUpdate_limit_zero (env : Env) (db : DB)
    (hq : db.queryErr = none) (hr : db.rowsErr = none) :
    FetchSetsForBatchUpdate env db 0 = .ret (some [], none) := by
  simp [FetchSetsForBatchUpdate, querySets, hq, hr, makePanics]

theorem FetchSetsForBatchUpdate_limit_zero_witness :
    storedDB.queryErr = none ∧ storedDB.rowsErr = none ∧
    FetchSetsForBatchUpdate (sampleEnv "" []) storedDB 1
      = .ret (some [scanSet (rowAt 0 ⟨0⟩)], none) ∧
    FetchSetsForBatchUpdate (sampleEnv "" []) storedDB 0 = .ret (some [], none) :=
  ⟨rfl, rfl, by decide,
    FetchSetsForBatchUpdate_limit_zero (sampleEnv "" []) storedDB rfl rfl⟩

/-- C9 fails for a negative limit: on a healthy store whose engine accepts the
negative `LIMIT` the call panics, and where the engine rejects it the call
returns the error. -/
theorem FetchSetsForBatchUpdate_negative_limit :
    FetchSetsForBatchUpdate (sampleEnv "" []) sampleDB (-1) = .panic ∧
    FetchSetsForBatchUpdate (sampleEnv "" []) { sampleDB with negLimitErr := some "Error 1064" }
      (-1) = .ret (none, some "Error 1064") := by
  constructor <;> rfl

/-! ## Properties of `CreateSet` -/

/-- C3, as the code has it: `CreateSet` runs its statements one by one without
a transaction; when the first `k` succeed and the next fails, it returns that
error and the tables keep the effect of the first `k` statements.  They are
unchanged when the very first statement fails. -/
theorem CreateSet_stops_at_first_failure (db : DB) (s : Set) (k : Nat) (e : Err)
    (rest : List (Option Err))
    (hf : db.execFaults = List.replicate k none ++ some e :: rest) (hk : k < stepCount s) :
    (CreateSet db s).2 = some e ∧
    (CreateSet db s).1.sets = (afterSteps s db k).sets ∧
    (CreateSet db s).1.beatmaps = (afterSteps s db k).beatmaps ∧
    (k = 0 → (CreateSet db s).1.sets = db.sets ∧ (CreateSet db s).1.beatmaps = db.beatmaps) := by
  unfold stepCount at hk
  have hk4 : k < 4 := by split at hk <;> omega
  interval_cases k
  · simp [CreateSet, DeleteSet, DB.Exec, hf, afterSteps]
  · simp [CreateSet, DeleteSet, DB.Exec, hf, afterSteps, deleteBeatmapsOf, List.replicate]
  · simp [CreateSet, DeleteSet, DB.Exec, hf, afterSteps, deleteBeatmapsOf, deleteSetRow,
      List.replicate]
  · have hc : ¬ s.ChildrenBeatmaps.length = 0 := by
      intro h
      simp [h] at hk
    simp [CreateSet, DeleteSet, DB.Exec, hf, afterSteps, deleteBeatmapsOf, deleteSetRow,
      insertSetRow, CreateBeatmaps, hc, List.replicate]

theorem CreateSet_stops_at_first_failure_witness :
    (CreateSet { storedDB with execFaults := [none, none, some "connection lost"] }
        { ID := 1 }).2 = some "connection lost" ∧
    (CreateSet { storedDB with execFaults := [none, none, some "connection lost"] }
        { ID := 1 }).1.sets = [] :=
  let h := CreateSet_stops_at_first_failure
    { storedDB with execFaults := [none, none, some "connection lost"] } { ID := 1 } 2
    "connection lost" [] rfl (by decide)
  ⟨h.1, h.2.1⟩

/-- C3 fails: the insertion of the set row fails after both deletions took
effect; `CreateSet` returns the error and the stored set and its child are
gone. -/
theorem CreateSet_not_atomic :
    (CreateSet { storedDB with execFaults := [none, none, some "connection lost"] }
        { ID := 1 }).2 = some "connection lost" ∧
    (CreateSet { storedDB with execFaults := [none, none, some "connection lost"] }
        { ID := 1 }).1.sets ≠ storedDB.sets ∧
    (CreateSet { storedDB with execFaults := [none, none, some "connection lost"] }
        { ID := 1 }).1.beatmaps ≠ storedDB.beatmaps := by
  refine ⟨rfl, ?_, ?_⟩ <;> decide

/-! ## Properties of `FetchBeatmaps` and `FetchSet` -/

theorem Outcome.bind_eq_ret {α β : Type} (x : Outcome α) (f : α → Outcome β) (b : β) :
    (x >>= f) = .ret b ↔ ∃ a, x = .ret a ∧ f a = .ret b := by
  cases x with
  | panic => simp [Bind.bind, Outcome.bind]
  | ret a => simp [Bind.bind, Outcome.bind]

theorem assertString_eq_ret (v : Option JVal) (s : String) :
    assertString v = .ret s ↔ v = some (.str s) := by
  unfold assertString
  split <;> simp_all

theorem ParseInt_invalid (l : List Char) (h : (ParseInt l).2 = some .invalid) :
    (ParseInt l).1 = 0 := by
  cases l with
  | nil => rfl
  | cons c cs =>
    unfold ParseInt at h ⊢
    simp only at h ⊢
    generalize ParseUint (if (c == '+' || c == '-') = true then cs else c :: cs) = r at h ⊢
    obtain ⟨un, e⟩ := r
    cases e with
    | none =>
      simp only at h ⊢
      split_ifs at h <;> simp at h
    | some k =>
      cases k with
      | invalid => rfl
      | range =>
        simp only at h ⊢
        split_ifs at h <;> simp at h

theorem Atoi_invalid (s : String) (h : (Atoi s).2 = some .invalid) : (Atoi s).1 = 0 :=
  ParseInt_invalid s.data h

/-- C4, as the code has it: when the response decodes to an empty array,
`FetchSet` returns a nil set with a nil error, and so does `FetchBeatmaps` when
that is the response for the first of its identifiers. -/
theorem empty_response_returns_nil_nil (env : Env) (db : DB) (id : Int) (ids : List Int)
    (withChildren : Bool) (api_key body bodyB : String)
    (hk : queryApiKey db = .ok api_key)
    (hg : env.httpGet ("https://old.ppy.sh/api/get_beatmaps?k=" ++ api_key ++ "&s=" ++ Itoa id)
      = .ok body)
    (hj : env.jsonUnmarshal body = .ok [])
    (hgB : env.httpGet ("https://old.ppy.sh/api/get_beatmaps?k=" ++ api_key ++ "&b=" ++ Itoa id)
      = .ok bodyB)
    (hjB : env.jsonUnmarshal bodyB = .ok []) :
    FetchSet env db id withChildren = .ret (none, none) ∧
    FetchBeatmaps env db (id :: ids) = .ret (none, none) := by
  constructor
  · simp [FetchSet, hk, hg, hj]
  · simp [FetchBeatmaps, fetchBeatmapsLoop, hk, hgB, hjB]

theorem empty_response_returns_nil_nil_witness :
    FetchSet (sampleEnv "[]" []) sampleDB 5 true = .ret (none, none) ∧
    FetchBeatmaps (sampleEnv "[]" []) sampleDB [5, 6] = .ret (none, none) :=
  empty_response_returns_nil_nil (sampleEnv "[]" []) sampleDB 5 [6] true "key" "[]" "[]"
    rfl rfl rfl rfl rfl

/-- C4 fails: on an empty array both functions return a nil result together
with a nil error. -/
theorem empty_response_no_error :
    (∃ r, FetchSet (sampleEnv "[]" []) sampleDB 5 false = .ret (r, none)) ∧
    (∃ r, FetchBeatmaps (sampleEnv "[]" []) sampleDB [5] = .ret (r, none)) :=
  ⟨⟨none, rfl⟩, ⟨none, rfl⟩⟩

theorem beatmapFromRecord_identity (d : Record) (bm : Beatmap)
    (h : beatmapFromRecord d = .ret bm) :
    ∃ a b m, d.get "beatmap_id" = some (.str a) ∧ d.get "beatmapset_id" = some (.str b) ∧
      d.get "mode" = some (.str m) ∧
      bm.ID = (Atoi a).1 ∧ bm.ParentSetID = (Atoi b).1 ∧ bm.Mode = (Atoi m).1 := by
  unfold beatmapFromRecord at h
  simp only [Outcome.bind_eq_ret, assertString_eq_ret, Pure.pure, Outcome.ret.injEq] at h
  obtain ⟨a1, h1, a2, h2, a3, -, a4, -, a5, h5, a6, -, a7, -, a8, -, a9, -, a10, -, a11, -,
    a12, -, a13, -, a14, -, a15, -, a16, -, a17, -, a18, -, a19, -, hbm⟩ := h
  subst hbm
  exact ⟨a1, a2, a5, h1, h2, h5, rfl, rfl, rfl⟩

theorem setFromRecord_identity (env : Env) (d : Record) (s : Set)
    (h : setFromRecord env d = .ret s) :
    ∃ b, d.get "beatmapset_id" = some (.str b) ∧ s.ID = (Atoi b).1 := by
  unfold setFromRecord at h
  simp only [Outcome.bind_eq_ret, assertString_eq_ret, Pure.pure, Outcome.ret.injEq] at h
  obtain ⟨a1, h1, a2, -, hrest⟩ := h
  generalize assertStringOk (d.get "approved_date") = p1 at hrest
  obtain ⟨a3, -, a4, -, a5, -, hrest⟩ := hrest
  generalize assertStringOk (d.get "artist_unicode") = p2 at hrest
  obtain ⟨a6, -, hrest⟩ := hrest
  generalize assertStringOk (d.get "title_unicode") = p3 at hrest
  obtain ⟨a7, -, a8, -, a9, -, a10, -, a11, -, a12, -, a13, -, a14, -, a15, -, a16, -, a17, -,
    hs⟩ := hrest
  subst hs
  exact ⟨a1, h1, rfl⟩

/-- C5, as the code has it: the normalization discards the error of
`strconv.Atoi`.  When the record has its asserted fields, `FetchBeatmaps`
returns the beatmap and `FetchSet` the set with a nil error, whatever the
identity strings are; `ID`, `ParentSetID` and `Mode` hold the value `Atoi`
returns next to its error, which is 0 for a string that is no decimal
integer. -/
theorem normalization_discards_parse_errors (env : Env) (db : DB) (id : Int)
    (api_key body bodyB : String) (d : Record) (rest restB : List Record)
    (bm : Beatmap) (s : Set)
    (hk : queryApiKey db = .ok api_key)
    (hg : env.httpGet ("https://old.ppy.sh/api/get_beatmaps?k=" ++ api_key ++ "&s=" ++ Itoa id)
      = .ok body)
    (hj : env.jsonUnmarshal body = .ok (d :: rest))
    (hgB : env.httpGet ("https://old.ppy.sh/api/get_beatmaps?k=" ++ api_key ++ "&b=" ++ Itoa id)
      = .ok bodyB)
    (hjB : env.jsonUnmarshal bodyB = .ok (d :: restB))
    (hb : beatmapFromRecord d = .ret bm) (hs : setFromRecord env d = .ret s) :
    FetchBeatmaps env db [id] = .ret (some [bm], none) ∧
    FetchSet env db id false = .ret (some s, none) ∧
    ∃ a b m, d.get "beatmap_id" = some (.str a) ∧ d.get "beatmapset_id" = some (.str b) ∧
      d.get "mode" = some (.str m) ∧
      bm.ID = (Atoi a).1 ∧ bm.ParentSetID = (Atoi b).1 ∧ bm.Mode = (Atoi m).1 ∧
      s.ID = (Atoi b).1 ∧
      ((Atoi a).2 = some .invalid → bm.ID = 0) ∧
      ((Atoi b).2 = some .invalid → bm.ParentSetID = 0 ∧ s.ID = 0) ∧
      ((Atoi m).2 = some .invalid → bm.Mode = 0) := by
  refine ⟨?_, ?_, ?_⟩
  · simp [FetchBeatmaps, fetchBeatmapsLoop, hk, hgB, hjB, hb]
  · simp [FetchSet, hk, hg, hj, hs]
  · obtain ⟨a, b, m, ha, hb2, hm, e1, e2, e3⟩ := beatmapFromRecord_identity d bm hb
    obtain ⟨b', hb', e4⟩ := setFromRecord_identity env d s hs
    have hbb : b' = b := by
      rw [hb2] at hb'
      simpa using hb'.symm
    subst hbb
    refine ⟨a, b', m, ha, hb2, hm, e1, e2, e3, e4, ?_, ?_, ?_⟩
    · intro h
      rw [e1, Atoi_invalid a h]
    · intro h
      rw [e2, e4, Atoi_invalid b' h]
      exact ⟨rfl, rfl⟩
    · intro h
      rw [e3, Atoi_invalid m h]

/-- C5 fails: identity fields that are no integers produce a beatmap and a set
with `ID`, `ParentSetID` and `Mode` 0 and no error. -/
theorem non_integer_identity_gives_zero :
    (∃ bm, FetchBeatmaps (sampleEnv "" [sampleRecord "abc" "xyz" "osu" []]) sampleDB [7]
        = .ret (some [bm], none) ∧ bm.ID = 0 ∧ bm.ParentSetID = 0 ∧ bm.Mode = 0) ∧
    (∃ s, FetchSet (sampleEnv "" [sampleRecord "abc" "xyz" "osu" []]) sampleDB 7 false
        = .ret (some s, none) ∧ s.ID = 0) ∧
    (Atoi "abc").2 = some .invalid ∧ (Atoi "xyz").2 = some .invalid ∧
    (Atoi "osu").2 = some .invalid := by
  refine ⟨⟨_, rfl, ?_, ?_, ?_⟩, ⟨_, rfl, ?_⟩, ?_, ?_, ?_⟩ <;> decide

theorem normalization_discards_parse_errors_witness :
    FetchBeatmaps (sampleEnv "" [sampleRecord "abc" "xyz" "osu" []]) sampleDB [7] =
      .ret (some [(beatmapFromRecord (sampleRecord "abc" "xyz" "osu" [])).value], none) ∧
    FetchSet (sampleEnv "" [sampleRecord "abc" "xyz" "osu" []]) sampleDB 7 false =
      .ret (some (setFromRecord (sampleEnv "" [sampleRecord "abc" "xyz" "osu" []])
        (sampleRecord "abc" "xyz" "osu" [])).value, none) :=
  let h := normalization_discards_parse_errors
    (sampleEnv "" [sampleRecord "abc" "xyz" "osu" []]) sampleDB 7 "key" "" ""
    (sampleRecord "abc" "xyz" "osu" []) [] []
    (beatmapFromRecord (sampleRecord "abc" "xyz" "osu" [])).value
    (setFromRecord (sampleEnv "" [sampleRecord "abc" "xyz" "osu" []])
      (sampleRecord "abc" "xyz" "osu" [])).value
    rfl rfl rfl rfl rfl rfl rfl
  ⟨h.1, h.2.1⟩

/-! ## Properties of `SearchSets` -/

/-- C6, as the code has it: with more than one status, or more than one mode,
`SearchSets` requests nothing; unless the allocation of the result slice
panics it returns an empty sequence and no error. -/
theorem SearchSets_compound_filter_no_query (env : Env) (db searchDB : DB)
    (opts : SearchOptions) (h : 2 ≤ opts.Status.length ∨ 2 ≤ opts.Mode.length) :
    (SearchSets env db searchDB opts).1 = [] ∧
    (makePanics env opts.Amount = false →
      SearchSets env db searchDB opts = ([], .ret (some [], none))) := by
  have hg : ¬ (opts.Status.length < 2 ∧ opts.Mode.length < 2) := by omega
  constructor
  · unfold SearchSets
    split_ifs <;> rfl
  · intro hm
    unfold SearchSets
    rw [if_neg (by simp [hm]), if_neg hg]

theorem SearchSets_compound_filter_no_query_witness :
    (SearchSets (sampleEnv "" []) sampleDB sampleDB { Status := [1, 2], Mode := [3] }).1 = [] :=
  (SearchSets_compound_filter_no_query (sampleEnv "" []) sampleDB sampleDB
    { Status := [1, 2], Mode := [3] } (Or.inl (by decide))).1

/-- C6 fails: with two statuses, and with two modes, no request is issued,
whereas the empty lists request `r=0` and `m=0`. -/
theorem SearchSets_two_statuses_skip_query :
    SearchSets (sampleEnv "" []) sampleDB sampleDB { Status := [1, 2] }
      = ([], .ret (some [], none)) ∧
    SearchSets (sampleEnv "" []) sampleDB sampleDB { Mode := [0, 1] }
      = ([], .ret (some [], none)) ∧
    (SearchSets (sampleEnv "" []) sampleDB sampleDB { }).1
      = ["https://old.ppy.sh/web/osu-search.php?u=u&h=&p=0&q=Newest&r=0&m=0"] := by
  refine ⟨rfl, rfl, ?_⟩
  decide

theorem splitGo_pipe_length (l : List Char) (budget : Nat) (cur : List Char) :
    (splitGo ['|'] budget 0 cur l).length = min budget (l.count '|') + 1 := by
  induction l generalizing budget cur with
  | nil => cases budget <;> simp [splitGo]
  | cons c cs ih =>
    cases budget with
    | zero =>
      rw [splitGo, ih]
      simp
    | succ b =>
      have hskip : (['|'] : List Char).length - 1 = 0 := rfl
      rw [splitGo, hskip]
      by_cases hc : c = '|'
      · subst hc
        simp only [List.isPrefixOf, beq_self_eq_true, Bool.and_self, if_true, List.length_cons,
          ih, List.count_cons_self]
        omega
      · have hne : ('|' == c) = false := by
          simp only [beq_eq_false_iff_ne, ne_eq]
          exact fun h => hc h.symm
        simp only [List.isPrefixOf, hne, Bool.false_and, Bool.false_eq_true, if_false, ih]
        rw [List.count_cons_of_ne (fun h => hc h.symm)]

theorem SplitN_pipe_length (l : List Char) :
    (SplitN l ['|'] 14).length = min 13 (l.count '|') + 1 := by
  unfold SplitN
  exact splitGo_pipe_length l 13 []

theorem index_ret {α : Type} (xs : List α) (i : Nat) (h : i < xs.length) :
    ∃ x, index xs i = .ret x := by
  unfold index
  rw [List.get?_eq_get h]
  exact ⟨_, rfl⟩

theorem setFromFields_ret (env : Env) (fields : List (List Char)) (h : 14 ≤ fields.length) :
    ∃ s, setFromFields env fields = .ret s := by
  have hlen : (fields.map (fun v => if v = [] then ['0'] else v)).length = fields.length :=
    List.length_map _ _
  obtain ⟨x1, h1⟩ := index_ret (fields.map (fun v => if v = [] then ['0'] else v)) 1 (by omega)
  obtain ⟨x2, h2⟩ := index_ret (fields.map (fun v => if v = [] then ['0'] else v)) 2 (by omega)
  obtain ⟨x3, h3⟩ := index_ret (fields.map (fun v => if v = [] then ['0'] else v)) 3 (by omega)
  obtain ⟨x4, h4⟩ := index_ret (fields.map (fun v => if v = [] then ['0'] else v)) 4 (by omega)
  obtain ⟨x5, h5⟩ := index_ret (fields.map (fun v => if v = [] then ['0'] else v)) 5 (by omega)
  obtain ⟨x6, h6⟩ := index_ret (fields.map (fun v => if v = [] then ['0'] else v)) 6 (by omega)
  obtain ⟨x7, h7⟩ := index_ret (fields.map (fun v => if v = [] then ['0'] else v)) 7 (by omega)
  obtain ⟨x8, h8⟩ := index_ret (fields.map (fun v => if v = [] then ['0'] else v)) 8 (by omega)
  obtain ⟨x9, h9⟩ := index_ret (fields.map (fun v => if v = [] then ['0'] else v)) 9 (by omega)
  obtain ⟨x10, h10⟩ :=
    index_ret (fields.map (fun v => if v = [] then ['0'] else v)) 10 (by omega)
  obtain ⟨x13, h13⟩ :=
    index_ret (fields.map (fun v => if v = [] then ['0'] else v)) 13 (by omega)
  unfold setFromFields
  simp only [h1, h2, h3, h4, h5, h6, h7, h8, h9, h10, h13, Bind.bind, Outcome.bind, Pure.pure]
  exact ⟨_, rfl⟩

theorem searchLines_spec (env : Env) (lines : List (List Char)) (acc : List Set)
    (h : ∀ l ∈ lines, l.count '|' = 0 ∨ 13 ≤ l.count '|') :
    ∃ sets, searchLines env lines acc = .ret (acc ++ sets) ∧
      List.Forall₂ (fun l s => setFromFields env (SplitN l ['|'] 14) = .ret s)
        (lines.filter (fun l => decide ('|' ∈ l))) sets := by
  induction lines generalizing acc with
  | nil => exact ⟨[], by simp [searchLines], by simp⟩
  | cons l ls ih =>
    have hls : ∀ l ∈ ls, l.count '|' = 0 ∨ 13 ≤ l.count '|' :=
      fun x hx => h x (List.mem_cons_of_mem _ hx)
    rcases h l (List.mem_cons_self _ _) with h0 | h13
    · obtain ⟨sets, e, f⟩ := ih acc hls
      have hnot : '|' ∉ l := List.count_eq_zero.mp h0
      refine ⟨sets, ?_, ?_⟩
      · rw [searchLines]
        simp only [SplitN_pipe_length, h0]
        simpa using e
      · simpa [List.filter_cons, hnot] using f
    · have hmem : '|' ∈ l := by
        apply List.count_pos_iff.mp
        omega
      have hlen : (SplitN l ['|'] 14).length = 14 := by
        rw [SplitN_pipe_length]
        omega
      obtain ⟨s, hs⟩ := setFromFields_ret env (SplitN l ['|'] 14) (by omega)
      obtain ⟨sets, e, f⟩ := ih (acc ++ [s]) hls
      refine ⟨s :: sets, ?_, ?_⟩
      · rw [searchLines]
        simp only [hlen, hs]
        simpa using e
      · simp only [List.filter_cons, hmem, decide_True, if_true]
        exact List.Forall₂.cons hs f

/-- C8, as the code has it: when every line of the response has no `|` or at
least 13 of them, so that it splits into one field or into 14, `SearchSets`
returns, in line order, exactly one `Set` for each line containing a `|`, built
from its 14 fields, and none for the other lines. -/
theorem SearchSets_one_set_per_record_line (env : Env) (db searchDB : DB)
    (opts : SearchOptions) (body : String)
    (hA : makePanics env opts.Amount = false)
    (hS : opts.Status.length < 2) (hM : opts.Mode.length < 2)
    (hg : env.httpGet (searchURI env db opts) = .ok body)
    (hl : ∀ l ∈ bodyLines body, l.count '|' = 0 ∨ 13 ≤ l.count '|') :
    ∃ sets, SearchSets env db searchDB opts
        = ([searchURI env db opts], .ret (some sets, none)) ∧
      List.Forall₂ (fun l s => setFromFields env (SplitN l ['|'] 14) = .ret s)
        ((bodyLines body).filter (fun l => decide ('|' ∈ l))) sets ∧
      sets.length = ((bodyLines body).filter (fun l => decide ('|' ∈ l))).length := by
  obtain ⟨sets, e, f⟩ := searchLines_spec env (bodyLines body) [] hl
  refine ⟨sets, ?_, f, f.length_eq.symm⟩
  unfold SearchSets
  rw [if_neg (by simp [hA]), if_pos ⟨hS, hM⟩]
  simp only [hg]
  rw [e]
  simp

theorem SearchSets_one_set_per_record_line_witness :
    ∃ sets, SearchSets (sampleEnv sampleSearchBody []) sampleDB sampleDB { }
        = ([searchURI (sampleEnv sampleSearchBody []) sampleDB { }], .ret (some sets, none)) ∧
      sets.length = 1 :=
  let ⟨sets, e, _, n⟩ := SearchSets_one_set_per_record_line (sampleEnv sampleSearchBody [])
    sampleDB sampleDB { } sampleSearchBody rfl (by decide) (by decide) rfl (by decide)
  ⟨sets, e, n.trans (by decide)⟩

/-- C8 fails: a line that splits into two fields contributes no `Set`; the
call panics on the missing fields. -/
theorem SearchSets_short_line_panics :
    bodyLines "a|b" = [['a', '|', 'b']] ∧
    SplitN ['a', '|', 'b'] ['|'] 14 = [['a'], ['b']] ∧
    (SearchSets (sampleEnv "a|b" []) sampleDB sampleDB { }).2 = .panic := by
  refine ⟨by decide, by decide, ?_⟩
  rfl

/-! ## Optional fields of `FetchSet` -/

theorem digitChar_toNat (n : Nat) (h : n < 10) : (digitChar n).toNat = 48 + n := by
  interval_cases n <;> rfl

theorem isDigit_digitChar (n : Nat) (h : n < 10) : isDigit (digitChar n) = true := by
  unfold isDigit
  rw [digitChar_toNat n h]
  simp only [Bool.and_eq_true, decide_eq_true_eq]
  omega

theorem digitVal_digitChar (n : Nat) (h : n < 10) : digitVal (digitChar n) = n := by
  unfold digitVal
  rw [digitChar_toNat n h]
  simp

theorem digitChar_ne_space (n : Nat) (h : n < 10) : digitChar n ≠ ' ' := by
  interval_cases n <;> decide

theorem getYear_digits (a b c d : Nat) (rest : List Char)
    (ha : a < 10) (hb : b < 10) (hc : c < 10) (hd : d < 10) :
    getYear (digitChar a :: digitChar b :: digitChar c :: digitChar d :: rest)
      = some (a * 1000 + b * 100 + c * 10 + d, rest) := by
  simp [getYear, isDigit_digitChar, digitVal_digitChar, ha, hb, hc, hd]

theorem getnum_digits (a b : Nat) (rest : List Char) (fixed : Bool)
    (ha : a < 10) (hb : b < 10) :
    getnum (digitChar a :: digitChar b :: rest) fixed = some (a * 10 + b, rest) := by
  simp [getnum, isDigit_digitChar, digitVal_digitChar, ha, hb]

theorem skipLit_self (c : Char) (rest : List Char) : skipLit c (c :: rest) = some rest := by
  simp [skipLit]

theorem skipSpace_digit (a : Nat) (rest : List Char) (ha : a < 10) :
    skipSpace (' ' :: digitChar a :: rest) = some (digitChar a :: rest) := by
  have hsp : decide (digitChar a = ' ') = false := by
    simpa using digitChar_ne_space a ha
  simp [skipSpace, List.dropWhile_cons, hsp]

theorem parseLayoutOsu_digits (y3 y2 y1 y0 m1 m0 d1 d0 h1 h0 i1 i0 s1 s0 : Nat)
    (hy3 : y3 < 10) (hy2 : y2 < 10) (hy1 : y1 < 10) (hy0 : y0 < 10)
    (hm1 : m1 < 10) (hm0 : m0 < 10) (hd1 : d1 < 10) (hd0 : d0 < 10)
    (hh1 : h1 < 10) (hh0 : h0 < 10) (hi1 : i1 < 10) (hi0 : i0 < 10)
    (hs1 : s1 < 10) (hs0 : s0 < 10)
    (hmonth : ¬ (m1 * 10 + m0 = 0 ∨ 12 < m1 * 10 + m0))
    (hhour : ¬ (24 ≤ h1 * 10 + h0)) (hmin : ¬ (60 ≤ i1 * 10 + i0))
    (hsec : ¬ (60 ≤ s1 * 10 + s0))
    (hday : ¬ (d1 * 10 + d0 < 1 ∨
      d1 * 10 + d0 > daysIn (m1 * 10 + m0) (y3 * 1000 + y2 * 100 + y1 * 10 + y0))) :
    parseLayoutOsu (digitChar y3 :: digitChar y2 :: digitChar y1 :: digitChar y0 :: '-' ::
      digitChar m1 :: digitChar m0 :: '-' :: digitChar d1 :: digitChar d0 :: ' ' ::
      digitChar h1 :: digitChar h0 :: ':' :: digitChar i1 :: digitChar i0 :: ':' ::
      digitChar s1 :: digitChar s0 :: [])
      = some (Date (y3 * 1000 + y2 * 100 + y1 * 10 + y0) (m1 * 10 + m0) (d1 * 10 + d0)
          (h1 * 10 + h0) (i1 * 10 + i0) (s1 * 10 + s0) 0) := by
  unfold parseLayoutOsu
  rw [getYear_digits y3 y2 y1 y0 _ hy3 hy2 hy1 hy0]
  simp only [Option.bind_eq_bind, Option.some_bind, skipLit_self]
  rw [getnum_digits m1 m0 _ _ hm1 hm0]
  simp only [Option.some_bind, hmonth, if_false, skipLit_self]
  rw [getnum_digits d1 d0 _ _ hd1 hd0]
  simp only [Option.some_bind]
  rw [skipSpace_digit h1 _ hh1]
  simp only [Option.some_bind]
  rw [getnum_digits h1 h0 _ _ hh1 hh0]
  simp only [Option.some_bind, hhour, if_false, skipLit_self]
  rw [getnum_digits i1 i0 _ _ hi1 hi0]
  simp only [Option.some_bind, hmin, if_false, skipLit_self]
  rw [getnum_digits s1 s0 _ _ hs1 hs0]
  simp only [Option.some_bind, hsec, if_false, getFraction, ne_eq, not_true_eq_false, hday]
  rfl

theorem parseOsuDatetime_format (year month day hour min sec : Nat)
    (h : validCivil year month day hour min sec) :
    parseOsuDatetime (formatOsuDatetime year month day hour min sec)
      = Date year month day hour min sec 0 := by
  obtain ⟨hy, hm1, hm2, hd1, hd2, hh, hmi, hs⟩ := h
  have hd3 : day ≤ 31 := by
    unfold daysIn at hd2
    split_ifs at hd2 <;> omega
  have e1 : year / 1000 * 1000 + year / 100 % 10 * 100 + year / 10 % 10 * 10 + year % 10
      = year := by omega
  have e2 : month / 10 * 10 + month % 10 = month := by omega
  have e3 : day / 10 * 10 + day % 10 = day := by omega
  have e4 : hour / 10 * 10 + hour % 10 = hour := by omega
  have e5 : min / 10 * 10 + min % 10 = min := by omega
  have e6 : sec / 10 * 10 + sec % 10 = sec := by omega
  have key := parseLayoutOsu_digits (year / 1000) (year / 100 % 10) (year / 10 % 10)
    (year % 10) (month / 10) (month % 10) (day / 10) (day % 10) (hour / 10) (hour % 10)
    (min / 10) (min % 10) (sec / 10) (sec % 10)
    (by omega) (by omega) (by omega) (by omega) (by omega) (by omega) (by omega) (by omega)
    (by omega) (by omega) (by omega) (by omega) (by omega) (by omega)
    (by rw [e2]; omega) (by rw [e4]; omega) (by rw [e5]; omega) (by rw [e6]; omega)
    (by rw [e1, e2, e3]; omega)
  rw [e1, e2, e3, e4, e5, e6] at key
  unfold parseOsuDatetime
  have hdata : (formatOsuDatetime year month day hour min sec).data
      = digitChar (year / 1000) :: digitChar (year / 100 % 10) :: digitChar (year / 10 % 10) ::
        digitChar (year % 10) :: '-' :: digitChar (month / 10) :: digitChar (month % 10) ::
        '-' :: digitChar (day / 10) :: digitChar (day % 10) :: ' ' ::
        digitChar (hour / 10) :: digitChar (hour % 10) :: ':' ::
        digitChar (min / 10) :: digitChar (min % 10) :: ':' ::
        digitChar (sec / 10) :: digitChar (sec % 10) :: [] := rfl
  rw [hdata, key]

theorem assertString_of_isStringAt (d : Record) (key : String) (h : isStringAt d key = true) :
    ∃ a, assertString (d.get key) = .ret a := by
  unfold isStringAt at h
  cases hv : d.get key with
  | none =>
    rw [hv] at h
    simp at h
  | some v =>
    rw [hv] at h
    cases v with
    | str a => exact ⟨a, rfl⟩
    | null => simp at h
    | bool b => simp at h
    | number x => simp at h
    | composite => simp at h

theorem assertStringOk_str (a : String) : assertStringOk (some (.str a)) = (a, true) := rfl

theorem assertStringOk_other (v : Option JVal) (h : ∀ a, v ≠ some (.str a)) :
    assertStringOk v = ("", false) := by
  unfold assertStringOk
  split
  · rename_i a
    exact absurd rfl (h a)
  · rfl

theorem setFromRecord_optional (env : Env) (d : Record) (s : Set)
    (h : setFromRecord env d = .ret s) :
    s.ApprovedDate = (if (assertStringOk (d.get "approved_date")).2
      then parseOsuDatetime (assertStringOk (d.get "approved_date")).1 else Time.zero) ∧
    s.ArtistUnicode = (if (assertStringOk (d.get "artist_unicode")).2
      then (assertStringOk (d.get "artist_unicode")).1 else "") ∧
    s.TitleUnicode = (if (assertStringOk (d.get "title_unicode")).2
      then (assertStringOk (d.get "title_unicode")).1 else "") := by
  unfold setFromRecord at h
  simp only [Outcome.bind_eq_ret, assertString_eq_ret, Pure.pure, Outcome.ret.injEq] at h
  obtain ⟨a1, -, a2, -, hrest⟩ := h
  rcases hp1 : assertStringOk (d.get "approved_date") with ⟨str1, ok1⟩
  rw [hp1] at hrest
  obtain ⟨a3, -, a4, -, a5, -, hrest⟩ := hrest
  rcases hp2 : assertStringOk (d.get "artist_unicode") with ⟨str2, ok2⟩
  rw [hp2] at hrest
  obtain ⟨a6, -, hrest⟩ := hrest
  rcases hp3 : assertStringOk (d.get "title_unicode") with ⟨str3, ok3⟩
  rw [hp3] at hrest
  obtain ⟨a7, -, a8, -, a9, -, a10, -, a11, -, a12, -, a13, -, a14, -, a15, -, a16, -, a17, -,
    hs⟩ := hrest
  subst hs
  exact ⟨rfl, rfl, rfl⟩

theorem setFromRecord_total (env : Env) (d : Record) (h : hasRequired d = true) :
    ∃ s, setFromRecord env d = .ret s := by
  unfold hasRequired at h
  rw [List.all_eq_true] at h
  obtain ⟨x1, h1⟩ := assertString_of_isStringAt d "beatmapset_id" (h _ (by decide))
  obtain ⟨x2, h2⟩ := assertString_of_isStringAt d "approved" (h _ (by decide))
  obtain ⟨x3, h3⟩ := assertString_of_isStringAt d "submit_date" (h _ (by decide))
  obtain ⟨x4, h4⟩ := assertString_of_isStringAt d "last_update" (h _ (by decide))
  obtain ⟨x5, h5⟩ := assertString_of_isStringAt d "artist" (h _ (by decide))
  obtain ⟨x6, h6⟩ := assertString_of_isStringAt d "title" (h _ (by decide))
  obtain ⟨x7, h7⟩ := assertString_of_isStringAt d "creator" (h _ (by decide))
  obtain ⟨x8, h8⟩ := assertString_of_isStringAt d "source" (h _ (by decide))
  obtain ⟨x9, h9⟩ := assertString_of_isStringAt d "tags" (h _ (by decide))
  obtain ⟨x10, h10⟩ := assertString_of_isStringAt d "video" (h _ (by decide))
  obtain ⟨x11, h11⟩ := assertString_of_isStringAt d "storyboard" (h _ (by decide))
  obtain ⟨x12, h12⟩ := assertString_of_isStringAt d "download_unavailable" (h _ (by decide))
  obtain ⟨x13, h13⟩ := assertString_of_isStringAt d "audio_unavailable" (h _ (by decide))
  obtain ⟨x14, h14⟩ := assertString_of_isStringAt d "genre_id" (h _ (by decide))
  obtain ⟨x15, h15⟩ := assertString_of_isStringAt d "language_id" (h _ (by decide))
  obtain ⟨x16, h16⟩ := assertString_of_isStringAt d "favourite_count" (h _ (by decide))
  obtain ⟨x17, h17⟩ := assertString_of_isStringAt d "rating" (h _ (by decide))
  unfold setFromRecord
  rcases assertStringOk (d.get "approved_date") with ⟨str1, ok1⟩
  rcases assertStringOk (d.get "artist_unicode") with ⟨str2, ok2⟩
  rcases assertStringOk (d.get "title_unicode") with ⟨str3, ok3⟩
  simp only [h1, h2, h3, h4, h5, h6, h7, h8, h9, h10, h11, h12, h13, h14, h15, h16, h17,
    Bind.bind, Outcome.bind, Pure.pure]
  exact ⟨_, rfl⟩

theorem FetchSet_ret_fields (env : Env) (db : DB) (id : Int) (api_key body : String)
    (d : Record) (ds : List Record) (withChildren : Bool) (s : Set) (e : Option Err)
    (hk : queryApiKey db = .ok api_key)
    (hg : env.httpGet ("https://old.ppy.sh/api/get_beatmaps?k=" ++ api_key ++ "&s=" ++ Itoa id)
      = .ok body)
    (hj : env.jsonUnmarshal body = .ok (d :: ds))
    (h : FetchSet env db id withChildren = .ret (some s, e)) :
    ∃ s0, setFromRecord env d = .ret s0 ∧ e = none ∧ s.ApprovedDate = s0.ApprovedDate ∧
      s.ArtistUnicode = s0.ArtistUnicode ∧ s.TitleUnicode = s0.TitleUnicode := by
  unfold FetchSet at h
  simp only [hk, hg, hj] at h
  cases hs : setFromRecord env d with
  | panic => simp [hs] at h
  | ret s0 =>
    refine ⟨s0, rfl, ?_⟩
    simp only [hs] at h
    cases withChildren with
    | false =>
      simp only [Bool.false_eq_true, if_false, Outcome.ret.injEq, Prod.mk.injEq,
        Option.some.injEq] at h
      obtain ⟨rfl, rfl⟩ := h
      exact ⟨rfl, rfl, rfl, rfl⟩
    | true =>
      simp only [if_true] at h
      cases hc : collectIDs (d :: ds) with
      | panic => simp [hc] at h
      | ret ids =>
        simp only [hc] at h
        cases hf : FetchBeatmaps env db ids with
        | panic => simp [hf] at h
        | ret r =>
          obtain ⟨children, err⟩ := r
          cases err with
          | some x => simp [hf] at h
          | none =>
            simp only [hf, Outcome.ret.injEq, Prod.mk.injEq, Option.some.injEq] at h
            obtain ⟨rfl, rfl⟩ := h
            exact ⟨rfl, rfl, rfl, rfl⟩

/-- C10: for a non-empty detail response whose first record has the required
fields, `FetchSet` without children returns a set and no error, and with
children it does so whenever the batched fetch of the children returns without
error; in every set it returns `ArtistUnicode`, `TitleUnicode` and
`ApprovedDate` are the supplied values (the instant written as
`YYYY-MM-DD HH:MM:SS`), and the empty string or the zero time for a field that
is absent or no string. -/
theorem FetchSet_optional_fields (env : Env) (db : DB) (id : Int) (api_key body : String)
    (d : Record) (ds : List Record)
    (hk : queryApiKey db = .ok api_key)
    (hg : env.httpGet ("https://old.ppy.sh/api/get_beatmaps?k=" ++ api_key ++ "&s=" ++ Itoa id)
      = .ok body)
    (hj : env.jsonUnmarshal body = .ok (d :: ds))
    (hreq : hasRequired d = true) :
    (∃ s, FetchSet env db id false = .ret (some s, none)) ∧
    (∀ ids children, collectIDs (d :: ds) = .ret ids →
      FetchBeatmaps env db ids = .ret (children, none) →
      ∃ s, FetchSet env db id true = .ret (some s, none)) ∧
    ∀ (withChildren : Bool) (s : Set) (e : Option Err),
      FetchSet env db id withChildren = .ret (some s, e) →
      e = none ∧
      (∀ a, d.get "artist_unicode" = some (.str a) → s.ArtistUnicode = a) ∧
      (∀ t, d.get "title_unicode" = some (.str t) → s.TitleUnicode = t) ∧
      (∀ year month day hour min sec, validCivil year month day hour min sec →
        d.get "approved_date" = some (.str (formatOsuDatetime year month day hour min sec)) →
        s.ApprovedDate = Date year month day hour min sec 0) ∧
      ((∀ a, d.get "artist_unicode" ≠ some (.str a)) → s.ArtistUnicode = "") ∧
      ((∀ t, d.get "title_unicode" ≠ some (.str t)) → s.TitleUnicode = "") ∧
      ((∀ x, d.get "approved_date" ≠ some (.str x)) → s.ApprovedDate = Time.zero) := by
  obtain ⟨s0, hs0⟩ := setFromRecord_total env d hreq
  refine ⟨?_, ?_, ?_⟩
  · exact ⟨s0, by simp [FetchSet, hk, hg, hj, hs0]⟩
  · intro ids children hc hf
    exact ⟨{ s0 with ChildrenBeatmaps := children.getD [] },
      by simp [FetchSet, hk, hg, hj, hs0, hc, hf]⟩
  · intro withChildren s e h
    obtain ⟨s1, hs1, he, e1, e2, e3⟩ :=
      FetchSet_ret_fields env db id api_key body d ds withChildren s e hk hg hj h
    obtain ⟨o1, o2, o3⟩ := setFromRecord_optional env d s1 hs1
    rw [← e1] at o1
    rw [← e2] at o2
    rw [← e3] at o3
    refine ⟨he, ?_, ?_, ?_, ?_, ?_, ?_⟩
    · intro a ha
      rw [o2, ha, assertStringOk_str]
      rfl
    · intro t ht
      rw [o3, ht, assertStringOk_str]
      rfl
    · intro year month day hour min sec hv hx
      rw [o1, hx, assertStringOk_str]
      simp only [if_true]
      exact parseOsuDatetime_format year month day hour min sec hv
    · intro ha
      rw [o2, assertStringOk_other _ ha]
      rfl
    · intro ht
      rw [o3, assertStringOk_other _ ht]
      rfl
    · intro hx
      rw [o1, assertStringOk_other _ hx]
      rfl

theorem FetchSet_optional_fields_witness :
    ∃ s, FetchSet (sampleEnv "" [sampleFullRecord]) sampleDB 2 false = .ret (some s, none) ∧
      s.ArtistUnicode = "Künstler" ∧ s.TitleUnicode = "Titel" ∧
      s.ApprovedDate = Date 2019 3 4 5 6 7 0 :=
  let h := FetchSet_optional_fields (sampleEnv "" [sampleFullRecord]) sampleDB 2 "key" ""
    sampleFullRecord [] rfl rfl rfl (by decide)
  let ⟨s, hs⟩ := h.1
  let g := h.2.2 false s none hs
  ⟨s, hs, g.2.1 "Künstler" (by decide), g.2.2.1 "Titel" (by decide),
    g.2.2.2.1 2019 3 4 5 6 7 (by unfold validCivil; decide) (by decide)⟩

end models
